import Mathlib

/-!
Shallow embedding of the smart-heating thermostat core
(`custom_components/smart_learning_thermostat/climate.py`).

Temperatures, rates and timestamps are modelled as rationals (the Python
code computes with floats but every claim is about the exact control /
learning algebra, not rounding).  Timestamps are seconds; the code divides
by 60 where it works in minutes, and the loaded `max_on_time` is in
seconds (`config minutes * 60`, see `_load_config_options`).

Python truthiness matters in several guards (`if not self._last_on_time`,
…): a float field is falsy when it is `None` **or** `0.0`, and a string
field is falsy only when `None` (schedule states are non-empty strings).
`truthy` below models the float case, `Option.isSome` the string case.
-/

namespace SmartHeating

/-- HVAC operating mode (`HVACMode.HEAT` / `HVACMode.OFF`). -/
inductive HVACMode where
  | off
  | heat
deriving DecidableEq, Repr

/-- Observed schedule-entity state string: `STATE_ON`, `STATE_OFF`, or any
other state string (e.g. unavailable). -/
inductive SchedState where
  | on
  | off
  | unavail
deriving DecidableEq, Repr

/-- Actuator commands issued through `hass.services.async_call`. -/
inductive Cmd where
  | turn_on
  | turn_off
deriving DecidableEq, Repr

/-- Python truthiness of an optional float: falsy iff `None` or `0.0`. -/
def truthy : Option ℚ → Bool
  | none => false
  | some x => x != 0

/-- Configuration as loaded by `_load_config_options`.  Entity ids are
modelled by whether they are configured; `max_on_time` is already in
seconds (the loader multiplies the configured minutes by 60). -/
structure Config where
  heater_entity : Bool
  schedule_entity : Bool
  outside_sensor : Bool
  enable_preheat : Bool
  enable_overshoot : Bool
  enable_learning : Bool
  hysteresis : ℚ
  max_on_time : ℚ
  max_preheat_time : ℚ
  min_burn_time : ℚ
  max_heat_loss_time : ℚ
  weather_sensitivity : ℚ
  comfort_temp : ℚ
  setback_temp : ℚ
deriving DecidableEq, Repr

/-- The external world as read during one control-loop invocation:
wall-clock time (seconds), the schedule entity's state (`none` when the
entity's state object is missing), its parsed `next_event` attribute, and
the outdoor reading. -/
structure Env where
  now : ℚ
  sched_state : Option SchedState
  next_event : Option ℚ
  outside_temp : Option ℚ
deriving DecidableEq, Repr

/-- Mutable fields of `SmartThermostat`.  `preset_preheat` models
`_attr_preset_mode == "preheat"`.  `peak_temp_time` is set exactly when
`peak_temp_observed` is (both assigned together in `_set_boiler`). -/
structure State where
  hvac_mode : HVACMode
  target_temp : ℚ
  current_temp : Option ℚ
  is_active_heating : Bool
  manual_mode : Bool
  last_schedule_state : Option SchedState
  preheat_latch : Bool
  heat_up_rate : ℚ
  heat_loss_rate : ℚ
  overshoot_temp : ℚ
  outside_ref_temp : ℚ
  last_on_time : Option ℚ
  heat_start_temp : Option ℚ
  last_off_time : Option ℚ
  peak_temp_observed : Option ℚ
  peak_temp_time : Option ℚ
  heat_loss_tracking_active : Bool
  preset_preheat : Bool
deriving DecidableEq, Repr

/-- `__init__` with the defaults of
`smart_learning_thermostat/const.py` (`DEFAULT_HEAT_UP_RATE = 0.03`,
`DEFAULT_HEAT_LOSS_RATE = -0.02`, `DEFAULT_OVERSHOOT = 0.0`) and the
inline default `outside_ref_temp = 10.0`. -/
def initState (cfg : Config) : State where
  hvac_mode := HVACMode.off
  target_temp := cfg.setback_temp
  current_temp := none
  is_active_heating := false
  manual_mode := false
  last_schedule_state := none
  preheat_latch := false
  heat_up_rate := 0.03
  heat_loss_rate := -0.02
  overshoot_temp := 0
  outside_ref_temp := 10
  last_on_time := none
  heat_start_temp := none
  last_off_time := none
  peak_temp_observed := none
  peak_temp_time := none
  heat_loss_tracking_active := false
  preset_preheat := false

/-- Start-up resync in `async_added_to_hass`: when a heater entity is
configured, `_is_active_heating` is overwritten with whether the actual
switch is currently ON. -/
def startup_resync (cfg : Config) (switch_is_on : Bool) (s : State) : State :=
  if cfg.heater_entity then { s with is_active_heating := switch_is_on } else s

/-- `_get_outside_temp`: `None` without a configured outside sensor,
otherwise the (possibly unavailable) reading. -/
def get_outside_temp (cfg : Config) (env : Env) : Option ℚ :=
  if cfg.outside_sensor then env.outside_temp else none

/-- `_get_next_schedule_start`: `None` without a schedule entity, without
a state object, or without a parseable `next_event` attribute. -/
def get_next_schedule_start (cfg : Config) (env : Env) : Option ℚ :=
  if cfg.schedule_entity then
    match env.sched_state with
    | none => none
    | some _ => env.next_event
  else none

/-- `_learn_heat_up_rate`: EMA update of `heat_up_rate` (clamped to
`[0.01, 1.0]`) and of `outside_ref_temp`, gated on truthy cycle fields,
`duration ≥ min_burn_time` minutes and `delta ≥ 0.2`. -/
def learn_heat_up_rate (cfg : Config) (env : Env) (s : State) : State :=
  if !truthy s.last_on_time || !truthy s.heat_start_temp || !truthy s.current_temp then s
  else
    let duration_mins := (env.now - s.last_on_time.getD 0) / 60
    let delta_temp := s.current_temp.getD 0 - s.heat_start_temp.getD 0
    if duration_mins < cfg.min_burn_time then s
    else if delta_temp < 0.2 then s
    else
      let calculated_rate := delta_temp / duration_mins
      let new_rate := s.heat_up_rate * 0.8 + calculated_rate * 0.2
      let s1 := { s with heat_up_rate := max 0.01 (min 1 new_rate) }
      match get_outside_temp cfg env with
      | some current_outside =>
          { s1 with outside_ref_temp := s1.outside_ref_temp * 0.8 + current_outside * 0.2 }
      | none => s1

/-- `_finalize_heat_loss_learning`: EMA update of `heat_loss_rate`
(clamped to `[0.001, 0.5]`), gated on truthy tracking fields, an armed
tracker, `duration ≥ 30` minutes and `delta ≥ 0.2`. -/
def finalize_heat_loss_learning (env : Env) (s : State) : State :=
  if !truthy s.peak_temp_observed || !truthy s.peak_temp_time || !truthy s.current_temp then s
  else if !s.heat_loss_tracking_active then s
  else
    let duration_mins := (env.now - s.peak_temp_time.getD 0) / 60
    if duration_mins < 30 then s
    else
      let delta_temp := s.peak_temp_observed.getD 0 - s.current_temp.getD 0
      if delta_temp < 0.2 then s
      else
        let new_rate := s.heat_loss_rate * 0.8 + (delta_temp / duration_mins) * 0.2
        { s with heat_loss_rate := max 0.001 (min 0.5 new_rate) }

/-- `_update_off_cycle_stats`: raise the recorded peak, and cap the
heat-loss tracking window at `max_heat_loss_time` minutes. -/
def update_off_cycle_stats (cfg : Config) (env : Env) (s : State) : State :=
  if !truthy s.peak_temp_observed || !truthy s.current_temp then s
  else
    let s1 :=
      if s.current_temp.getD 0 > s.peak_temp_observed.getD 0 then
        { s with peak_temp_observed := s.current_temp, peak_temp_time := some env.now }
      else s
    if s1.heat_loss_tracking_active then
      let duration_mins := (env.now - s1.peak_temp_time.getD 0) / 60
      if duration_mins ≥ cfg.max_heat_loss_time then
        let s2 := finalize_heat_loss_learning env s1
        { s2 with heat_loss_tracking_active := false }
      else s1
    else s1

/-- `_set_boiler`: optimistic state update plus at most one actuator
command; on a real OFF transition with learning enabled it runs
`_learn_heat_up_rate` and arms the heat-loss tracker, on a real ON
transition with learning enabled it first finalizes a pending heat-loss
measurement. -/
def set_boiler (cfg : Config) (env : Env) (want_on : Bool) (s : State) : State × List Cmd :=
  if !cfg.heater_entity then (s, [])
  else if want_on && !s.is_active_heating then
    let s1 := if cfg.enable_learning && !s.is_active_heating then
        finalize_heat_loss_learning env s
      else s
    ({ s1 with is_active_heating := true,
               last_on_time := some env.now,
               heat_start_temp := s1.current_temp }, [Cmd.turn_on])
  else if !want_on && s.is_active_heating then
    let s1 := { s with is_active_heating := false }
    let s2 := if cfg.enable_learning then
        let s' := learn_heat_up_rate cfg env s1
        { s' with last_off_time := some env.now,
                  peak_temp_observed := s'.current_temp,
                  peak_temp_time := some env.now,
                  heat_loss_tracking_active := true }
      else s1
    (s2, [Cmd.turn_off])
  else (s, [])

/-- The schedule state observed by `_run_control_logic`: a missing state
object counts as `STATE_OFF`. -/
def obs_sched (env : Env) : SchedState :=
  env.sched_state.getD SchedState.off

/-- Step 1 of `_run_control_logic`: detect schedule transitions, clearing
`manual_mode` (and, on a transition to ON, `preheat_latch`), then record
the observed state. -/
def schedule_step (cfg : Config) (env : Env) (s : State) : State :=
  if cfg.schedule_entity then
    let current_state := obs_sched env
    let s1 :=
      if s.last_schedule_state.isSome && (some current_state != s.last_schedule_state) then
        let s' := { s with manual_mode := false }
        if current_state = SchedState.on then { s' with preheat_latch := false } else s'
      else s
    { s1 with last_schedule_state := some current_state }
  else s

/-- The weather-compensation penalty of the preheat math, shared verbatim
between `_run_control_logic` and `_calculate_next_fire_time`. -/
def adjusted_heat_rate (cfg : Config) (env : Env) (s : State) : ℚ :=
  match get_outside_temp cfg env with
  | some current_outside =>
      if cfg.weather_sensitivity > 0 then
        let delta_outside := s.outside_ref_temp - current_outside
        if delta_outside > 0 then
          let penalty_factor := min 0.8 (delta_outside * cfg.weather_sensitivity / 100)
          s.heat_up_rate * (1 - penalty_factor)
        else s.heat_up_rate
      else s.heat_up_rate
  | none => s.heat_up_rate

/-- `minutes_needed = min(diff / adjusted_rate, max_preheat_time)`. -/
def minutes_needed (cfg : Config) (env : Env) (s : State) (diff : ℚ) : ℚ :=
  min (diff / adjusted_heat_rate cfg env s) cfg.max_preheat_time

/-- The preheat decision inside step 2: `(should_preheat, new latch)`.
Sticky when the latch is already set; otherwise engage (and set the
latch) iff the deficit is positive and `now ≥ next_start − minutes_needed`. -/
def preheat_decision (cfg : Config) (env : Env) (s : State) : Bool × Bool :=
  if s.preheat_latch then (true, true)
  else
    match get_next_schedule_start cfg env with
    | some next_start =>
        let diff := cfg.comfort_temp - s.current_temp.getD 0
        if diff > 0 then
          if env.now ≥ next_start - minutes_needed cfg env s diff * 60 then (true, true)
          else (false, s.preheat_latch)
        else (false, s.preheat_latch)
    | none => (false, s.preheat_latch)

/-- Step 2 of `_run_control_logic`: resolve the auto target (skipped
entirely in manual mode). -/
def target_step (cfg : Config) (env : Env) (s : State) : State :=
  if s.manual_mode then s
  else
    let s0 := { s with preset_preheat := false }
    if cfg.schedule_entity && (s0.last_schedule_state == some SchedState.on) then
      { s0 with target_temp := cfg.comfort_temp }
    else if cfg.enable_preheat && cfg.schedule_entity then
      let d := preheat_decision cfg env s0
      let s1 := { s0 with preheat_latch := d.2 }
      if d.1 then { s1 with target_temp := cfg.comfort_temp, preset_preheat := true }
      else { s1 with target_temp := cfg.setback_temp }
    else { s0 with target_temp := cfg.setback_temp }

/-- Step 3 of `_run_control_logic`: hysteresis / overshoot / watchdog
decision on the actuator. -/
def boiler_step (cfg : Config) (env : Env) (s : State) : State × List Cmd :=
  let overshoot := if cfg.enable_overshoot then s.overshoot_temp else 0
  let off_point := s.target_temp - overshoot
  let on_point := s.target_temp - cfg.hysteresis
  let c := s.current_temp.getD 0
  if s.is_active_heating then
    if c ≥ off_point then set_boiler cfg env false s
    else if truthy s.last_on_time && (env.now - s.last_on_time.getD 0 > cfg.max_on_time) then
      set_boiler cfg env false s
    else (s, [])
  else
    if c ≤ on_point then set_boiler cfg env true s
    else (s, [])

/-- `_run_control_logic`: safety short-circuit, then schedule detection,
target resolution and boiler control. -/
def run_control_logic (cfg : Config) (env : Env) (s : State) : State × List Cmd :=
  if s.current_temp = none || s.hvac_mode == HVACMode.off then
    set_boiler cfg env false s
  else
    boiler_step cfg env (target_step cfg env (schedule_step cfg env s))

/-- `async_set_temperature`: record the manual target (if one was passed)
and rerun the control logic. -/
def set_temperature (cfg : Config) (env : Env) (t : Option ℚ) (s : State) : State × List Cmd :=
  match t with
  | some v => run_control_logic cfg env { s with target_temp := v, manual_mode := true }
  | none => (s, [])

/-- `async_set_hvac_mode`: switch mode, force the boiler off when turning
OFF, then rerun the control logic. -/
def set_hvac_mode (cfg : Config) (env : Env) (m : HVACMode) (s : State) : State × List Cmd :=
  let s1 := { s with hvac_mode := m }
  if m = HVACMode.off then
    let r := set_boiler cfg env false s1
    let r2 := run_control_logic cfg env r.1
    (r2.1, r.2 ++ r2.2)
  else run_control_logic cfg env s1

/-- `_async_sensor_changed`: ignore unavailable/unparseable samples,
otherwise store the reading, update off-cycle statistics (learning
enabled, boiler idle) and rerun the control logic. -/
def sensor_changed (cfg : Config) (env : Env) (reading : Option ℚ) (s : State) :
    State × List Cmd :=
  match reading with
  | none => (s, [])
  | some v =>
      let s1 := { s with current_temp := some v }
      let s2 := if cfg.enable_learning && !s1.is_active_heating then
          update_off_cycle_stats cfg env s1
        else s1
      run_control_logic cfg env s2

/-- `_calculate_next_fire_time`: read-only projection of the next
expected boiler activation. -/
def calculate_next_fire_time (cfg : Config) (env : Env) (s : State) : Option ℚ :=
  if s.is_active_heating then some env.now
  else if cfg.schedule_entity && (env.sched_state == some SchedState.on) then some env.now
  else
    match get_next_schedule_start cfg env with
    | none => none
    | some next_sched =>
        if !cfg.enable_preheat then some next_sched
        else
          let current := s.current_temp.getD cfg.setback_temp
          let diff := cfg.comfort_temp - current
          if diff ≤ 0 then some next_sched
          else
            let fire_time := next_sched - minutes_needed cfg env s diff * 60
            if fire_time < env.now then some env.now else some fire_time

/-- The external triggers that can mutate a `State` (periodic tick,
manual set-point, mode command, sensor sample), each carrying the
environment read during that invocation. -/
inductive Event where
  | tickEv (env : Env)
  | setTempEv (env : Env) (t : Option ℚ)
  | setModeEv (env : Env) (m : HVACMode)
  | sensorEv (env : Env) (r : Option ℚ)

/-- One external trigger handled to completion. -/
def step (cfg : Config) (e : Event) (s : State) : State :=
  match e with
  | .tickEv env => (run_control_logic cfg env s).1
  | .setTempEv env t => (set_temperature cfg env t s).1
  | .setModeEv env m => (set_hvac_mode cfg env m s).1
  | .sensorEv env r => (sensor_changed cfg env r s).1

/-- States reachable from the freshly initialized state by any sequence
of external triggers. -/
def Reachable (cfg : Config) (s : State) : Prop :=
  Relation.ReflTransGen (fun a b => ∃ e, b = step cfg e a) (initState cfg) s

/-- The environment an event carries into its control-loop invocation. -/
def Event.envOf : Event → Env
  | .tickEv env => env
  | .setTempEv env _ => env
  | .setModeEv env _ => env
  | .sensorEv env _ => env

/-- The learned-parameter ranges of the spec's invariant section, weakened
for `heat_loss_rate` to account for its out-of-range default `-0.02`
(`DEFAULT_HEAT_LOSS_RATE`): the rate is either still that default or has
been through the clamped EMA update. -/
def ParamInv (s : State) : Prop :=
  (0.01 ≤ s.heat_up_rate ∧ s.heat_up_rate ≤ 1) ∧
  (0 ≤ s.overshoot_temp ∧ s.overshoot_temp ≤ 1) ∧
  (s.heat_loss_rate = -0.02 ∨ (0.001 ≤ s.heat_loss_rate ∧ s.heat_loss_rate ≤ 0.5))

/-- How one operation may move the learned parameters: `heat_up_rate` and
`heat_loss_rate` are either untouched or land inside their clamp range;
`overshoot_temp` is never written (this engine's `_track_overshoot_peak`
is a stub). -/
def LearnedOk (a b : State) : Prop :=
  (b.heat_up_rate = a.heat_up_rate ∨ (0.01 ≤ b.heat_up_rate ∧ b.heat_up_rate ≤ 1)) ∧
  (b.heat_loss_rate = a.heat_loss_rate ∨
    (0.001 ≤ b.heat_loss_rate ∧ b.heat_loss_rate ≤ 0.5)) ∧
  b.overshoot_temp = a.overshoot_temp

/-! Concrete inputs used by counterexamples and witnesses. -/

/-- A full-featured configuration: heater, schedule and learning
configured, preheat enabled, no outdoor sensor; hysteresis 0.2,
max_on_time 300 min (18000 s), max_preheat 180 min, min_burn 10 min,
comfort 20, setback 15. -/
def cfgC1 : Config where
  heater_entity := true
  schedule_entity := true
  outside_sensor := false
  enable_preheat := true
  enable_overshoot := false
  enable_learning := true
  hysteresis := 0.2
  max_on_time := 18000
  max_preheat_time := 180
  min_burn_time := 10
  max_heat_loss_time := 45
  weather_sensitivity := 0
  comfort_temp := 20
  setback_temp := 15

/-- Mode OFF, sensor fine at 19°, boiler active since t = 600 s from 18°:
a valid learning sample (30 min burn, +1°). -/
def sC1 : State :=
  { initState cfgC1 with
      hvac_mode := HVACMode.off
      current_temp := some 19
      is_active_heating := true
      last_on_time := some 600
      heat_start_temp := some 18 }

def envC1 : Env :=
  { now := 2400, sched_state := some SchedState.off, next_event := none, outside_temp := none }

/-- Same configuration shape for the watchdog scenario of the spec:
max_on_time 300 min, overshoot compensation off. -/
def cfgC2 : Config where
  heater_entity := true
  schedule_entity := true
  outside_sensor := false
  enable_preheat := true
  enable_overshoot := false
  enable_learning := true
  hysteresis := 0.2
  max_on_time := 18000
  max_preheat_time := 180
  min_burn_time := 10
  max_heat_loss_time := 45
  weather_sensitivity := 0
  comfort_temp := 20
  setback_temp := 15

/-- Stuck sensor at 10° with the boiler on since t = 600 s. -/
def sC2 : State :=
  { initState cfgC2 with
      hvac_mode := HVACMode.heat
      current_temp := some 10
      is_active_heating := true
      last_on_time := some 600
      heat_start_temp := some 10 }

/-- 490 minutes later: elapsed 29400 s > max_on_time 18000 s. -/
def envC2 : Env :=
  { now := 30000, sched_state := some SchedState.off, next_event := none, outside_temp := none }

/-- Everything enabled, for the learned-parameter invariant claims. -/
def cfgC3 : Config where
  heater_entity := true
  schedule_entity := true
  outside_sensor := true
  enable_preheat := true
  enable_overshoot := true
  enable_learning := true
  hysteresis := 0.2
  max_on_time := 18000
  max_preheat_time := 180
  min_burn_time := 10
  max_heat_loss_time := 45
  weather_sensitivity := 2
  comfort_temp := 20
  setback_temp := 15

/-- Schedule + heater + preheat configured, comfort 21, setback 16. -/
def cfgC4 : Config where
  heater_entity := true
  schedule_entity := true
  outside_sensor := false
  enable_preheat := true
  enable_overshoot := false
  enable_learning := false
  hysteresis := 0.3
  max_on_time := 18000
  max_preheat_time := 180
  min_burn_time := 10
  max_heat_loss_time := 45
  weather_sensitivity := 0
  comfort_temp := 21
  setback_temp := 16

/-- A manually overridden state (user target 23°) observed while the
schedule was OFF. -/
def sC4 : State :=
  { initState cfgC4 with
      hvac_mode := HVACMode.heat
      current_temp := some 20.5
      target_temp := 23
      manual_mode := true
      last_schedule_state := some SchedState.off }

/-- The schedule has just flipped to ON. -/
def envC4 : Env :=
  { now := 1000, sched_state := some SchedState.on, next_event := none, outside_temp := none }

/-- Preheat-enabled configuration for the latch claims. -/
def cfgC5 : Config where
  heater_entity := true
  schedule_entity := true
  outside_sensor := false
  enable_preheat := true
  enable_overshoot := false
  enable_learning := false
  hysteresis := 0.2
  max_on_time := 18000
  max_preheat_time := 180
  min_burn_time := 10
  max_heat_loss_time := 45
  weather_sensitivity := 0
  comfort_temp := 20
  setback_temp := 15

/-- A latched preheat state (17°, schedule OFF). -/
def sC5 : State :=
  { initState cfgC5 with
      hvac_mode := HVACMode.heat
      current_temp := some 17
      target_temp := 20
      preheat_latch := true
      last_schedule_state := some SchedState.off
      preset_preheat := true }

/-- Schedule still OFF, next ON so far away (t = 100000 s) that the raw
ETA computation alone would not engage preheat now. -/
def envC5 : Env :=
  { now := 0, sched_state := some SchedState.off, next_event := some 100000,
    outside_temp := none }

/-- The claim's description of the weather-adjusted heat-up rate,
transcribed from the spec's words (4.2 step 3) for comparison with the
code's computation: apply the proportional penalty
`min(0.8, (outside_ref − outdoor) · sensitivity / 100)` exactly when an
outdoor reading is available, weather compensation applies
(`sensitivity > 0`) and `outside_ref − outdoor > 0`; otherwise the
learned rate is used unchanged. -/
def spec_adjusted_rate (heat_up_rate outside_ref ws : ℚ) (outdoor : Option ℚ) : ℚ :=
  match outdoor with
  | some o =>
      if ws > 0 ∧ outside_ref - o > 0 then
        heat_up_rate * (1 - min 0.8 ((outside_ref - o) * ws / 100))
      else heat_up_rate
  | none => heat_up_rate

/-- Preheat enabled, comfort 20, max_preheat_time 180, no outside sensor. -/
def cfgC6 : Config where
  heater_entity := true
  schedule_entity := true
  outside_sensor := false
  enable_preheat := true
  enable_overshoot := false
  enable_learning := false
  hysteresis := 0.2
  max_on_time := 18000
  max_preheat_time := 180
  min_burn_time := 10
  max_heat_loss_time := 45
  weather_sensitivity := 0
  comfort_temp := 20
  setback_temp := 15

/-- 17° with a learned rate of 0.05 °/min: deficit 3° ⇒ 60 minutes
needed. -/
def sC6 : State :=
  { initState cfgC6 with
      hvac_mode := HVACMode.heat
      current_temp := some 17
      heat_up_rate := 0.05 }

/-- Next ON at t = 3600 s and now exactly 60 minutes (3600 s) before it. -/
def envC6 : Env :=
  { now := 0, sched_state := some SchedState.off, next_event := some 3600,
    outside_temp := none }

/-- Learning enabled, min-burn 10 minutes. -/
def cfgC7 : Config where
  heater_entity := true
  schedule_entity := true
  outside_sensor := false
  enable_preheat := false
  enable_overshoot := false
  enable_learning := true
  hysteresis := 0.2
  max_on_time := 18000
  max_preheat_time := 180
  min_burn_time := 10
  max_heat_loss_time := 45
  weather_sensitivity := 0
  comfort_temp := 20
  setback_temp := 15

/-- An active cycle whose sample is implausibly large: from 10° to 110°
in the 10 minutes since t = 600 s, i.e. 10 °/min — ten times the clamp
ceiling. -/
def sC7 : State :=
  { initState cfgC7 with
      hvac_mode := HVACMode.heat
      current_temp := some 110
      is_active_heating := true
      last_on_time := some 600
      heat_start_temp := some 10 }

def envC7 : Env :=
  { now := 1200, sched_state := some SchedState.off, next_event := none,
    outside_temp := none }

/-- A clean accepted learning sample: on since t = 600 s, 18° → 19°. -/
def sC7w : State :=
  { sC7 with current_temp := some 19, heat_start_temp := some 18 }

/-- Preheat-enabled configuration (learning off) for the latch/override
interaction claims. -/
def cfgC8 : Config where
  heater_entity := true
  schedule_entity := true
  outside_sensor := false
  enable_preheat := true
  enable_overshoot := false
  enable_learning := false
  hysteresis := 0.2
  max_on_time := 18000
  max_preheat_time := 180
  min_burn_time := 10
  max_heat_loss_time := 45
  weather_sensitivity := 0
  comfort_temp := 20
  setback_temp := 15

def envC8a : Env :=
  { now := 0, sched_state := some SchedState.off, next_event := none, outside_temp := none }

def envC8b : Env :=
  { now := 600, sched_state := some SchedState.off, next_event := some 3600,
    outside_temp := none }

def envC8c : Env :=
  { now := 700, sched_state := some SchedState.off, next_event := some 3600,
    outside_temp := none }

/-- User turns the thermostat to HEAT. -/
def eC8a : Event := Event.setModeEv envC8a HVACMode.heat

/-- First sensor sample, 17°, with the next ON one hour away: preheat
engages (deficit 3° at 0.03 °/min, capped at 180 min ⇒ 100 min > 50 min
remaining) and latches. -/
def eC8b : Event := Event.sensorEv envC8b (some 17)

/-- User sets a manual target of 22° while preheat is latched. -/
def eC8c : Event := Event.setTempEv envC8c (some 22)

def sC8a : State := { initState cfgC8 with hvac_mode := HVACMode.heat }

def sC8curr : State := { sC8a with current_temp := some 17 }

def sC8sched : State := { sC8curr with last_schedule_state := some SchedState.off }

def sC8tgt : State :=
  { sC8sched with target_temp := 20, preheat_latch := true, preset_preheat := true }

/-- After `eC8b`: latched, preheating, boiler on. -/
def sC8b : State :=
  { sC8tgt with is_active_heating := true, last_on_time := some 600,
                heat_start_temp := some 17 }

/-- Schedule entity becomes unavailable while preheat is latched: a tick
at t = 650 s records the UNAVAILABLE state and keeps the latch. -/
def envC8u : Env :=
  { now := 650, sched_state := some SchedState.unavail, next_event := some 3600,
    outside_temp := none }

def eC8u : Event := Event.tickEv envC8u

/-- After `eC8u`: still latched, recorded schedule state UNAVAILABLE. -/
def sC8u : State := { sC8b with last_schedule_state := some SchedState.unavail }

def envC8d : Env :=
  { now := 700, sched_state := some SchedState.unavail, next_event := some 3600,
    outside_temp := none }

/-- User sets a manual target of 22° while latched with the schedule
unavailable. -/
def eC8d : Event := Event.setTempEv envC8d (some 22)

/-- After `eC8d`: `preheat_latch` and `manual_mode` both true, with the
recorded schedule state UNAVAILABLE rather than OFF. -/
def sC8d : State := { sC8u with target_temp := 22, manual_mode := true }

/-- Preheat-enabled configuration for the next-fire estimator claim. -/
def cfgC9 : Config where
  heater_entity := true
  schedule_entity := true
  outside_sensor := false
  enable_preheat := true
  enable_overshoot := false
  enable_learning := true
  hysteresis := 0.2
  max_on_time := 18000
  max_preheat_time := 180
  min_burn_time := 10
  max_heat_loss_time := 45
  weather_sensitivity := 0
  comfort_temp := 20
  setback_temp := 15

/-- Idle at t = 1000 s with the next scheduled ON at t = 10000 s. -/
def envC9 : Env :=
  { now := 1000, sched_state := some SchedState.off, next_event := some 10000,
    outside_temp := none }

/-- Idle boiler, room at 17° with a learned rate of 0.05 °/min. -/
def sC9 : State :=
  { initState cfgC9 with hvac_mode := HVACMode.heat, current_temp := some 17,
                         heat_up_rate := 0.05 }

/-- No schedule, no learning: the bare watchdog/hysteresis configuration. -/
def cfgC10 : Config where
  heater_entity := true
  schedule_entity := false
  outside_sensor := false
  enable_preheat := false
  enable_overshoot := false
  enable_learning := false
  hysteresis := 0.2
  max_on_time := 18000
  max_preheat_time := 180
  min_burn_time := 10
  max_heat_loss_time := 45
  weather_sensitivity := 0
  comfort_temp := 20
  setback_temp := 15

/-- The start-up resync with the heater switch found ON: actively heating
with `last_on_time` still unset. -/
def sC10 : State :=
  startup_resync cfgC10 true
    { initState cfgC10 with hvac_mode := HVACMode.heat, current_temp := some 10 }

/-- A tick arbitrarily far in the future: an armed watchdog would fire. -/
def envC10 : Env :=
  { now := 1000000000, sched_state := none, next_event := none, outside_temp := none }

/-- Step-2 output on the C10 state: the setback target, nothing else. -/
def sC10tgt : State := { sC10 with preset_preheat := false, target_temp := 15 }

section Lemmas

variable (cfg : Config) (env : Env) (s : State)

theorem truthy_some (x : ℚ) : truthy (some x) = (x != 0) := rfl

theorem truthy_none : truthy none = false := rfl

/-- `_learn_heat_up_rate` only writes `heat_up_rate` and `outside_ref_temp`. -/
theorem learn_heat_up_rate_shape :
    ∃ r o, learn_heat_up_rate cfg env s =
      { s with heat_up_rate := r, outside_ref_temp := o } := by
  unfold learn_heat_up_rate
  dsimp only
  split_ifs <;> try exact ⟨_, _, rfl⟩
  rcases h : get_outside_temp cfg env with _ | o <;> simp only [h] <;> exact ⟨_, _, rfl⟩

/-- `_finalize_heat_loss_learning` only writes `heat_loss_rate`. -/
theorem finalize_heat_loss_learning_shape :
    ∃ r, finalize_heat_loss_learning env s = { s with heat_loss_rate := r } := by
  unfold finalize_heat_loss_learning
  dsimp only
  split_ifs <;> exact ⟨_, rfl⟩

/-- `_update_off_cycle_stats` only writes the peak tracker and (through
finalization) `heat_loss_rate` and the tracking flag. -/
theorem update_off_cycle_stats_shape :
    ∃ p q r b, update_off_cycle_stats cfg env s =
      { s with peak_temp_observed := p, peak_temp_time := q,
               heat_loss_rate := r, heat_loss_tracking_active := b } := by
  unfold update_off_cycle_stats
  dsimp only
  split_ifs <;> try exact ⟨_, _, _, _, rfl⟩
  all_goals
    first
      | (obtain ⟨r, hr⟩ := finalize_heat_loss_learning_shape env
            { s with peak_temp_observed := s.current_temp, peak_temp_time := some env.now }
         simp only [hr]
         exact ⟨_, _, _, _, rfl⟩)
      | (obtain ⟨r, hr⟩ := finalize_heat_loss_learning_shape env s
         simp only [hr]
         exact ⟨_, _, _, _, rfl⟩)

/-- `_set_boiler` only writes the heating flag, the cycle trackers and
(through learning) the learned parameters. -/
theorem set_boiler_shape (b : Bool) :
    ∃ act hur hlr oref lon hst lof po pt trk,
      (set_boiler cfg env b s).1 =
        { s with is_active_heating := act, heat_up_rate := hur, heat_loss_rate := hlr,
                 outside_ref_temp := oref,
                 last_on_time := lon, heat_start_temp := hst, last_off_time := lof,
                 peak_temp_observed := po, peak_temp_time := pt,
                 heat_loss_tracking_active := trk } := by
  unfold set_boiler
  dsimp only
  split_ifs <;> try exact ⟨_, _, _, _, _, _, _, _, _, _, rfl⟩
  all_goals
    first
      | (obtain ⟨r, hr⟩ := finalize_heat_loss_learning_shape env s
         simp only [hr]
         exact ⟨_, _, _, _, _, _, _, _, _, _, rfl⟩)
      | (obtain ⟨r, o, hr⟩ := learn_heat_up_rate_shape cfg env { s with is_active_heating := false }
         simp only [hr]
         exact ⟨_, _, _, _, _, _, _, _, _, _, rfl⟩)

/-- Turning the boiler off with a configured heater leaves it inactive;
from an active state it issues exactly one `turn_off`, from an inactive
one it is a no-op. -/
theorem set_boiler_false_result (hh : cfg.heater_entity = true) :
    (set_boiler cfg env false s).1.is_active_heating = false ∧
      (s.is_active_heating = true → (set_boiler cfg env false s).2 = [Cmd.turn_off]) ∧
      (s.is_active_heating = false → set_boiler cfg env false s = (s, [])) := by
  unfold set_boiler
  rcases hact : s.is_active_heating
  · simp [hh, hact]
  · simp only [hh, hact, Bool.not_true, Bool.false_and, Bool.and_false, Bool.not_false,
      Bool.and_true, Bool.true_and, Bool.false_eq_true, if_false, if_true, ite_true, ite_false]
    try dsimp only
    split_ifs with hl
    · obtain ⟨r, o, hr⟩ := learn_heat_up_rate_shape cfg env { s with is_active_heating := false }
      simp [hr]
    · simp

/-- Without a configured heater `_set_boiler` is a no-op. -/
theorem set_boiler_no_heater (b : Bool) (hh : cfg.heater_entity = false) :
    set_boiler cfg env b s = (s, []) := by
  unfold set_boiler
  simp [hh]

/-- Step 1 with no configured schedule entity is a no-op. -/
theorem schedule_step_no_entity (hs : cfg.schedule_entity = false) :
    schedule_step cfg env s = s := by
  unfold schedule_step
  simp [hs]

/-- Step 1, fully characterized: transition detection and recording. -/
theorem schedule_step_eq (hs : cfg.schedule_entity = true) :
    schedule_step cfg env s =
      if s.last_schedule_state.isSome ∧ some (obs_sched env) ≠ s.last_schedule_state then
        { s with manual_mode := false,
                 preheat_latch :=
                   if obs_sched env = SchedState.on then false else s.preheat_latch,
                 last_schedule_state := some (obs_sched env) }
      else { s with last_schedule_state := some (obs_sched env) } := by
  unfold schedule_step
  simp only [hs, if_true, Bool.and_eq_true, Option.isSome_iff_exists, bne_iff_ne, ne_eq,
    decide_eq_true_eq]
  split_ifs with h1 h2 h3 h4 <;> simp_all

/-- Step 1 only writes `manual_mode`, `preheat_latch` and
`last_schedule_state`. -/
theorem schedule_step_shape :
    ∃ m l ls, schedule_step cfg env s =
      { s with manual_mode := m, preheat_latch := l, last_schedule_state := ls } := by
  unfold schedule_step
  dsimp only
  split_ifs <;> exact ⟨_, _, _, rfl⟩

/-- Step 2 in manual mode is a no-op. -/
theorem target_step_manual (hm : s.manual_mode = true) :
    target_step cfg env s = s := by
  unfold target_step
  simp [hm]

/-- Step 2 only writes `target_temp`, `preheat_latch` and the preset. -/
theorem target_step_shape :
    ∃ t l p, target_step cfg env s =
      { s with target_temp := t, preheat_latch := l, preset_preheat := p } := by
  unfold target_step
  dsimp only
  split_ifs <;> exact ⟨_, _, _, rfl⟩

/-- `preheat_decision` reads only the latch, the room temperature and the
learned rate / outdoor reference. -/
theorem preheat_decision_fields (a b : State)
    (h1 : a.preheat_latch = b.preheat_latch) (h2 : a.current_temp = b.current_temp)
    (h3 : a.heat_up_rate = b.heat_up_rate) (h4 : a.outside_ref_temp = b.outside_ref_temp) :
    preheat_decision cfg env a = preheat_decision cfg env b := by
  unfold preheat_decision minutes_needed adjusted_heat_rate
  rw [h1, h2, h3, h4]

/-- Step 2 with the schedule observed ON (not manual): comfort target. -/
theorem target_step_comfort (hm : s.manual_mode = false) (h1 : cfg.schedule_entity = true)
    (h2 : s.last_schedule_state = some SchedState.on) :
    target_step cfg env s =
      { s with target_temp := cfg.comfort_temp, preset_preheat := false } := by
  unfold target_step
  simp [hm, h1, h2]

/-- Step 2 in the preheat branch (not manual, schedule configured but not
observed ON, preheat enabled). -/
theorem target_step_preheat (hm : s.manual_mode = false) (h1 : cfg.schedule_entity = true)
    (h2 : s.last_schedule_state ≠ some SchedState.on) (h3 : cfg.enable_preheat = true) :
    target_step cfg env s =
      if (preheat_decision cfg env s).1 then
        { s with target_temp := cfg.comfort_temp,
                 preheat_latch := (preheat_decision cfg env s).2, preset_preheat := true }
      else
        { s with target_temp := cfg.setback_temp,
                 preheat_latch := (preheat_decision cfg env s).2, preset_preheat := false } := by
  unfold target_step
  have hbeq : (s.last_schedule_state == some SchedState.on) = false := by
    simp [h2]
  simp only [hm, h1, h3, hbeq, Bool.and_false, Bool.and_true, Bool.true_and,
    Bool.false_eq_true, if_false, if_true, ite_true, ite_false]
  rw [preheat_decision_fields cfg env
    { s with manual_mode := false, preset_preheat := false } s rfl rfl rfl rfl]

/-- The sticky case: a set latch always yields "engage". -/
theorem preheat_decision_latched (hl : s.preheat_latch = true) :
    preheat_decision cfg env s = (true, true) := by
  unfold preheat_decision
  simp [hl]

/-- Step 3 only writes the heating flag, cycle trackers and learned
parameters (via `_set_boiler`). -/
theorem boiler_step_shape :
    ∃ act hur hlr oref lon hst lof po pt trk,
      (boiler_step cfg env s).1 =
        { s with is_active_heating := act, heat_up_rate := hur, heat_loss_rate := hlr,
                 outside_ref_temp := oref,
                 last_on_time := lon, heat_start_temp := hst, last_off_time := lof,
                 peak_temp_observed := po, peak_temp_time := pt,
                 heat_loss_tracking_active := trk } := by
  unfold boiler_step
  dsimp only
  split_ifs <;> first
    | exact set_boiler_shape cfg env s false
    | exact set_boiler_shape cfg env s true
    | exact ⟨_, _, _, _, _, _, _, _, _, _, rfl⟩

/-- The safety short-circuit of `_run_control_logic`. -/
theorem run_control_logic_early (h : s.current_temp = none ∨ s.hvac_mode = HVACMode.off) :
    run_control_logic cfg env s = set_boiler cfg env false s := by
  unfold run_control_logic
  rcases h with h | h <;> simp [h]

/-- On the normal path `_run_control_logic` is the three stages in order. -/
theorem run_control_logic_stages (hc : s.current_temp ≠ none)
    (hm : s.hvac_mode = HVACMode.heat) :
    run_control_logic cfg env s =
      boiler_step cfg env (target_step cfg env (schedule_step cfg env s)) := by
  unfold run_control_logic
  rcases h : s.current_temp with _ | c
  · exact absurd h hc
  · simp [h, hm]

theorem learnedOk_refl : LearnedOk s s := ⟨Or.inl rfl, Or.inl rfl, rfl⟩

theorem learnedOk_trans {a b c : State} (h : LearnedOk a b) (g : LearnedOk b c) :
    LearnedOk a c := by
  obtain ⟨h1, h2, h3⟩ := h
  obtain ⟨g1, g2, g3⟩ := g
  refine ⟨?_, ?_, h3 ▸ g3⟩
  · rcases g1 with g | g
    · rw [g]; exact h1
    · exact Or.inr g
  · rcases g2 with g | g
    · rw [g]; exact h2
    · exact Or.inr g

/-- A state differing only in non-learned fields is `LearnedOk`. -/
theorem learnedOk_of_eq {a b : State} (h1 : b.heat_up_rate = a.heat_up_rate)
    (h2 : b.heat_loss_rate = a.heat_loss_rate) (h3 : b.overshoot_temp = a.overshoot_temp) :
    LearnedOk a b := ⟨Or.inl h1, Or.inl h2, h3⟩

theorem learnedOk_set_tracking (a : State) (b : Bool) :
    LearnedOk a { a with heat_loss_tracking_active := b } := learnedOk_of_eq rfl rfl rfl

theorem learnedOk_turn_on_fields (a : State) (v : Bool) (w u : Option ℚ) :
    LearnedOk a { a with is_active_heating := v, last_on_time := w, heat_start_temp := u } :=
  learnedOk_of_eq rfl rfl rfl

theorem learnedOk_turn_off_fields (a : State) (w p q : Option ℚ) (t : Bool) :
    LearnedOk a { a with last_off_time := w, peak_temp_observed := p,
                         peak_temp_time := q, heat_loss_tracking_active := t } :=
  learnedOk_of_eq rfl rfl rfl

theorem learnedOk_set_active (a : State) (v : Bool) :
    LearnedOk a { a with is_active_heating := v } := learnedOk_of_eq rfl rfl rfl

theorem learnedOk_peak_fields (a : State) (p q : Option ℚ) :
    LearnedOk a { a with peak_temp_observed := p, peak_temp_time := q } :=
  learnedOk_of_eq rfl rfl rfl

theorem clamp_hur_mem (x : ℚ) : 0.01 ≤ max 0.01 (min 1 x) ∧ max 0.01 (min 1 x) ≤ 1 :=
  ⟨le_max_left _ _, max_le (by norm_num) (min_le_left _ _)⟩

theorem clamp_hlr_mem (x : ℚ) :
    0.001 ≤ max 0.001 (min 0.5 x) ∧ max 0.001 (min 0.5 x) ≤ 0.5 :=
  ⟨le_max_left _ _, max_le (by norm_num) (min_le_left _ _)⟩

theorem learn_heat_up_rate_learnedOk : LearnedOk s (learn_heat_up_rate cfg env s) := by
  unfold learn_heat_up_rate
  dsimp only
  split_ifs <;> try exact learnedOk_refl _
  rcases h : get_outside_temp cfg env with _ | o <;> simp only [h] <;>
    exact ⟨Or.inr (clamp_hur_mem _), Or.inl rfl, rfl⟩

theorem finalize_heat_loss_learning_learnedOk :
    LearnedOk s (finalize_heat_loss_learning env s) := by
  unfold finalize_heat_loss_learning
  dsimp only
  split_ifs <;>
    first
      | exact learnedOk_refl _
      | exact ⟨Or.inl rfl, Or.inr (clamp_hlr_mem _), rfl⟩

theorem update_off_cycle_stats_learnedOk :
    LearnedOk s (update_off_cycle_stats cfg env s) := by
  unfold update_off_cycle_stats
  dsimp only
  split_ifs <;>
    first
      | exact learnedOk_refl _
      | exact learnedOk_peak_fields s _ _
      | exact learnedOk_trans
          (learnedOk_trans (learnedOk_peak_fields s _ _)
            (finalize_heat_loss_learning_learnedOk env _))
          (learnedOk_set_tracking _ false)

theorem set_boiler_learnedOk (b : Bool) : LearnedOk s (set_boiler cfg env b s).1 := by
  unfold set_boiler
  dsimp only
  split_ifs <;>
    first
      | exact learnedOk_refl _
      | exact learnedOk_trans (finalize_heat_loss_learning_learnedOk env s)
          (learnedOk_turn_on_fields _ _ _ _)
      | exact learnedOk_turn_on_fields s _ _ _
      | exact learnedOk_trans
          (learnedOk_trans (learnedOk_set_active s false)
            (learn_heat_up_rate_learnedOk cfg env { s with is_active_heating := false }))
          (learnedOk_turn_off_fields _ _ _ _ _)

theorem schedule_step_learnedOk : LearnedOk s (schedule_step cfg env s) := by
  obtain ⟨m, l, ls, h⟩ := schedule_step_shape cfg env s
  rw [h]
  exact learnedOk_of_eq rfl rfl rfl

theorem target_step_learnedOk : LearnedOk s (target_step cfg env s) := by
  obtain ⟨t, l, p, h⟩ := target_step_shape cfg env s
  rw [h]
  exact learnedOk_of_eq rfl rfl rfl

theorem boiler_step_learnedOk : LearnedOk s (boiler_step cfg env s).1 := by
  unfold boiler_step
  dsimp only
  split_ifs <;>
    first
      | exact set_boiler_learnedOk cfg env s false
      | exact set_boiler_learnedOk cfg env s true
      | exact learnedOk_refl _

theorem run_control_logic_learnedOk : LearnedOk s (run_control_logic cfg env s).1 := by
  unfold run_control_logic
  split_ifs
  · exact set_boiler_learnedOk cfg env s false
  · exact learnedOk_trans (schedule_step_learnedOk cfg env s)
      (learnedOk_trans (target_step_learnedOk cfg env _) (boiler_step_learnedOk cfg env _))

theorem set_temperature_learnedOk (t : Option ℚ) :
    LearnedOk s (set_temperature cfg env t s).1 := by
  cases t with
  | none => exact learnedOk_refl s
  | some v =>
      exact learnedOk_trans (learnedOk_of_eq rfl rfl rfl)
        (run_control_logic_learnedOk cfg env
          { s with target_temp := v, manual_mode := true })

theorem set_hvac_mode_learnedOk (m : HVACMode) :
    LearnedOk s (set_hvac_mode cfg env m s).1 := by
  unfold set_hvac_mode
  dsimp only
  split_ifs with hm
  · exact learnedOk_trans (learnedOk_of_eq rfl rfl rfl)
      (learnedOk_trans (set_boiler_learnedOk cfg env { s with hvac_mode := m } false)
        (run_control_logic_learnedOk cfg env
          (set_boiler cfg env false { s with hvac_mode := m }).1))
  · exact learnedOk_trans (learnedOk_of_eq rfl rfl rfl)
      (run_control_logic_learnedOk cfg env { s with hvac_mode := m })

theorem sensor_changed_learnedOk (r : Option ℚ) :
    LearnedOk s (sensor_changed cfg env r s).1 := by
  cases r with
  | none => exact learnedOk_refl s
  | some v =>
      unfold sensor_changed
      dsimp only
      split_ifs with hl
      · exact learnedOk_trans (learnedOk_of_eq rfl rfl rfl)
          (learnedOk_trans
            (update_off_cycle_stats_learnedOk cfg env { s with current_temp := some v })
            (run_control_logic_learnedOk cfg env
              (update_off_cycle_stats cfg env { s with current_temp := some v })))
      · exact learnedOk_trans (learnedOk_of_eq rfl rfl rfl)
          (run_control_logic_learnedOk cfg env { s with current_temp := some v })

theorem step_learnedOk (e : Event) : LearnedOk s (step cfg e s) := by
  cases e with
  | tickEv env => exact run_control_logic_learnedOk cfg env s
  | setTempEv env t => exact set_temperature_learnedOk cfg env s t
  | setModeEv env m => exact set_hvac_mode_learnedOk cfg env s m
  | sensorEv env r => exact sensor_changed_learnedOk cfg env s r

/-- Step 2 never clears a set latch (the sticky case of the preheat
decision returns `(true, true)`). -/
theorem target_step_latch_mono (hl : s.preheat_latch = true) :
    (target_step cfg env s).preheat_latch = true := by
  unfold target_step
  dsimp only
  split_ifs with h1 h2 h3 <;> try exact hl
  all_goals
    show (preheat_decision cfg env { s with preset_preheat := false }).2 = true
  all_goals
    rw [preheat_decision_fields cfg env { s with preset_preheat := false } s rfl rfl rfl rfl,
      preheat_decision_latched cfg env s hl]

/-- Within one control-loop invocation a set latch can only be cleared by
an observed schedule transition to ON. -/
theorem run_latch_clear_only (hl : s.preheat_latch = true)
    (h : (run_control_logic cfg env s).1.preheat_latch = false) :
    cfg.schedule_entity = true ∧ obs_sched env = SchedState.on ∧
    s.last_schedule_state ≠ none ∧ s.last_schedule_state ≠ some SchedState.on := by
  by_cases hearly : s.current_temp = none ∨ s.hvac_mode = HVACMode.off
  · rw [run_control_logic_early cfg env s hearly] at h
    obtain ⟨act, hur, hlr, oref, lon, hst, lof, po, pt, trk, hsh⟩ :=
      set_boiler_shape cfg env s false
    rw [hsh] at h
    exact absurd hl (by simpa using h)
  · push_neg at hearly
    have hmode : s.hvac_mode = HVACMode.heat := by
      cases hm : s.hvac_mode
      · exact absurd hm hearly.2
      · rfl
    rw [run_control_logic_stages cfg env s hearly.1 hmode] at h
    by_cases hsch : cfg.schedule_entity = true
    swap
    · rw [schedule_step_no_entity cfg env s (by simpa using hsch)] at h
      obtain ⟨act, hur, hlr, oref, lon, hst, lof, po, pt, trk, hb⟩ :=
        boiler_step_shape cfg env (target_step cfg env s)
      rw [hb] at h
      have := target_step_latch_mono cfg env s hl
      simp_all
    · rw [schedule_step_eq cfg env s hsch] at h
      split_ifs at h with hcond hon
      · exact ⟨hsch, hon, Option.isSome_iff_ne_none.mp hcond.1,
          fun hcontra => by simp [hcontra, hon] at hcond⟩
      · obtain ⟨act, hur, hlr, oref, lon, hst, lof, po, pt, trk, hb⟩ :=
          boiler_step_shape cfg env (target_step cfg env
            { s with manual_mode := false, preheat_latch := s.preheat_latch,
                     last_schedule_state := some (obs_sched env) })
        rw [hb] at h
        have := target_step_latch_mono cfg env
          { s with manual_mode := false, preheat_latch := s.preheat_latch,
                   last_schedule_state := some (obs_sched env) } hl
        simp_all
      · obtain ⟨act, hur, hlr, oref, lon, hst, lof, po, pt, trk, hb⟩ :=
          boiler_step_shape cfg env (target_step cfg env
            { s with last_schedule_state := some (obs_sched env) })
        rw [hb] at h
        have := target_step_latch_mono cfg env
          { s with last_schedule_state := some (obs_sched env) } hl
        simp_all

/-- Across any single external trigger a set latch can only be cleared by
an observed schedule transition to ON. -/
theorem step_latch_clear_only (e : Event) (hl : s.preheat_latch = true)
    (h : (step cfg e s).preheat_latch = false) :
    cfg.schedule_entity = true ∧ obs_sched (Event.envOf e) = SchedState.on ∧
    s.last_schedule_state ≠ none ∧ s.last_schedule_state ≠ some SchedState.on := by
  cases e with
  | tickEv env => exact run_latch_clear_only cfg env s hl h
  | setTempEv env t =>
      cases t with
      | none => exact absurd h (by simp [step, set_temperature, hl])
      | some v =>
          exact run_latch_clear_only cfg env
            { s with target_temp := v, manual_mode := true } hl h
  | setModeEv env m =>
      by_cases hm : m = HVACMode.off
      · subst hm
        have hstep : step cfg (Event.setModeEv env HVACMode.off) s =
            (run_control_logic cfg env
              (set_boiler cfg env false { s with hvac_mode := HVACMode.off }).1).1 := by
          show (set_hvac_mode cfg env HVACMode.off s).1 = _
          unfold set_hvac_mode
          simp
        rw [hstep] at h
        obtain ⟨act, hur, hlr, oref, lon, hst, lof, po, pt, trk, hsh⟩ :=
          set_boiler_shape cfg env { s with hvac_mode := HVACMode.off } false
        rw [hsh] at h
        exact run_latch_clear_only cfg env
          { { s with hvac_mode := HVACMode.off } with
              is_active_heating := act, heat_up_rate := hur, heat_loss_rate := hlr,
              outside_ref_temp := oref, last_on_time := lon, heat_start_temp := hst,
              last_off_time := lof, peak_temp_observed := po, peak_temp_time := pt,
              heat_loss_tracking_active := trk } hl h
      · have hstep : step cfg (Event.setModeEv env m) s =
            (run_control_logic cfg env { s with hvac_mode := m }).1 := by
          show (set_hvac_mode cfg env m s).1 = _
          unfold set_hvac_mode
          simp [hm]
        rw [hstep] at h
        exact run_latch_clear_only cfg env { s with hvac_mode := m } hl h
  | sensorEv env r =>
      cases r with
      | none => exact absurd h (by simp [step, sensor_changed, hl])
      | some v =>
          have hstep : step cfg (Event.sensorEv env (some v)) s =
              (run_control_logic cfg env
                (if (cfg.enable_learning && !s.is_active_heating) = true then
                  update_off_cycle_stats cfg env { s with current_temp := some v }
                else { s with current_temp := some v })).1 := by
            show (sensor_changed cfg env (some v) s).1 = _
            unfold sensor_changed
            rfl
          rw [hstep] at h
          split_ifs at h with hlearn
          · obtain ⟨p, q, rr, b, hu⟩ :=
              update_off_cycle_stats_shape cfg env { s with current_temp := some v }
            rw [hu] at h
            exact run_latch_clear_only cfg env
              { { s with current_temp := some v } with
                  peak_temp_observed := p, peak_temp_time := q,
                  heat_loss_rate := rr, heat_loss_tracking_active := b } hl h
          · exact run_latch_clear_only cfg env { s with current_temp := some v } hl h

/-- The code's weather-compensation computation equals the spec's
formula. -/
theorem adjusted_heat_rate_spec :
    adjusted_heat_rate cfg env s =
      spec_adjusted_rate s.heat_up_rate s.outside_ref_temp cfg.weather_sensitivity
        (get_outside_temp cfg env) := by
  unfold adjusted_heat_rate spec_adjusted_rate
  rcases get_outside_temp cfg env with _ | o
  · rfl
  · dsimp only
    split_ifs with h1 h2 h3 h4 <;> first | rfl | simp_all

theorem get_next_schedule_start_eq (st : SchedState) (ns : ℚ)
    (hsched : cfg.schedule_entity = true) (hst : env.sched_state = some st)
    (hnext : env.next_event = some ns) :
    get_next_schedule_start cfg env = some ns := by
  unfold get_next_schedule_start
  rw [hsched, hst, if_pos rfl]
  exact hnext

/-- The unlatched preheat decision, fully characterized. -/
theorem preheat_decision_eq (ns : ℚ) (hl : s.preheat_latch = false)
    (hns : get_next_schedule_start cfg env = some ns) :
    preheat_decision cfg env s =
      if cfg.comfort_temp - s.current_temp.getD 0 > 0 then
        (if env.now ≥
            ns - minutes_needed cfg env s (cfg.comfort_temp - s.current_temp.getD 0) * 60
         then (true, true) else (false, false))
      else (false, false) := by
  unfold preheat_decision
  simp only [hl, hns]
  split_ifs <;> simp_all

/-- Step 2's preheat branch, fully evaluated for an unlatched state. -/
theorem target_step_preheat_eval (c ns : ℚ)
    (hm : s.manual_mode = false) (hsched : cfg.schedule_entity = true)
    (hnoton : s.last_schedule_state ≠ some SchedState.on)
    (hpre : cfg.enable_preheat = true) (hl : s.preheat_latch = false)
    (hc : s.current_temp = some c) (hns : get_next_schedule_start cfg env = some ns) :
    target_step cfg env s =
      if cfg.comfort_temp - c > 0 then
        (if env.now ≥
            ns - min ((cfg.comfort_temp - c) / adjusted_heat_rate cfg env s)
                cfg.max_preheat_time * 60 then
          { s with target_temp := cfg.comfort_temp, preheat_latch := true,
                   preset_preheat := true }
        else
          { s with target_temp := cfg.setback_temp, preheat_latch := false,
                   preset_preheat := false })
      else
        { s with target_temp := cfg.setback_temp, preheat_latch := false,
                 preset_preheat := false } := by
  rw [target_step_preheat cfg env s hm hsched hnoton hpre,
    preheat_decision_eq cfg env s ns hl hns]
  simp only [hc, Option.getD_some, minutes_needed]
  split_ifs <;> simp_all

/-- Step 1 never sets the latch. -/
theorem schedule_step_latch_false (hl : s.preheat_latch = false) :
    (schedule_step cfg env s).preheat_latch = false := by
  unfold schedule_step
  dsimp only
  split_ifs <;> simp_all

/-- If step 2 turns the latch from false to true, then the preheat
branch ran: schedule entity configured, preheat enabled, no manual
override, and the recorded schedule state is not ON. -/
theorem target_step_latch_set (hl : s.preheat_latch = false)
    (h : (target_step cfg env s).preheat_latch = true) :
    cfg.schedule_entity = true ∧ cfg.enable_preheat = true ∧
    s.manual_mode = false ∧ s.last_schedule_state ≠ some SchedState.on := by
  unfold target_step at h
  dsimp only at h
  split_ifs at h with h1 h2 h3 h4
  · exact absurd h (by simp [hl])
  · exact absurd h (by simp [hl])
  · rw [Bool.and_eq_true] at h3
    have hm : s.manual_mode = false := by simpa using h1
    refine ⟨h3.2, h3.1, hm, fun hcon => h2 ?_⟩
    simp [h3.2, hcon]
  · rw [Bool.and_eq_true] at h3
    have hm : s.manual_mode = false := by simpa using h1
    refine ⟨h3.2, h3.1, hm, fun hcon => h2 ?_⟩
    simp [h3.2, hcon]
  · exact absurd h (by simp [hl])

/-- The latch invariant through one control-loop invocation: if the
result is latched, the recorded schedule state is known and not ON. -/
theorem run_latch_invariant
    (hInv : s.preheat_latch = true →
      s.last_schedule_state ≠ some SchedState.on ∧ s.last_schedule_state ≠ none)
    (h : (run_control_logic cfg env s).1.preheat_latch = true) :
    (run_control_logic cfg env s).1.last_schedule_state ≠ some SchedState.on ∧
    (run_control_logic cfg env s).1.last_schedule_state ≠ none := by
  by_cases hearly : s.current_temp = none ∨ s.hvac_mode = HVACMode.off
  · rw [run_control_logic_early cfg env s hearly] at h ⊢
    obtain ⟨act, hur, hlr, oref, lon, hst, lof, po, pt, trk, hsh⟩ :=
      set_boiler_shape cfg env s false
    rw [hsh] at h ⊢
    exact hInv h
  · push_neg at hearly
    have hmode : s.hvac_mode = HVACMode.heat := by
      cases hm : s.hvac_mode
      · exact absurd hm hearly.2
      · rfl
    rw [run_control_logic_stages cfg env s hearly.1 hmode] at h ⊢
    by_cases hsch : cfg.schedule_entity = true
    swap
    · rw [schedule_step_no_entity cfg env s (by simpa using hsch)] at h ⊢
      obtain ⟨t2, l2, p2, ht⟩ := target_step_shape cfg env s
      obtain ⟨act, hur, hlr, oref, lon, hst, lof, po, pt, trk, hb⟩ :=
        boiler_step_shape cfg env
          { s with target_temp := t2, preheat_latch := l2, preset_preheat := p2 }
      rw [ht, hb] at h ⊢
      by_cases hS1l : s.preheat_latch = true
      · exact hInv hS1l
      · have hset := target_step_latch_set cfg env s (by simpa using hS1l) (by rw [ht]; exact h)
        exact absurd hset.1 (by simpa using hsch)
    · rw [schedule_step_eq cfg env s hsch] at h ⊢
      split_ifs at h ⊢ with hT hOn
      · -- transition to ON: latch cleared, fresh set impossible without obs=on? handled below
        set S1 : State :=
          { s with manual_mode := false, preheat_latch := false,
                   last_schedule_state := some (obs_sched env) } with hS1
        obtain ⟨t2, l2, p2, ht⟩ := target_step_shape cfg env S1
        obtain ⟨act, hur, hlr, oref, lon, hst, lof, po, pt, trk, hb⟩ :=
          boiler_step_shape cfg env
            { S1 with target_temp := t2, preheat_latch := l2, preset_preheat := p2 }
        rw [ht, hb] at h ⊢
        have hset := target_step_latch_set cfg env S1 rfl (by rw [ht]; exact h)
        exact (hset.2.2.2 (by rw [hS1]; exact congrArg some hOn)).elim
      · set S1 : State :=
          { s with manual_mode := false, preheat_latch := s.preheat_latch,
                   last_schedule_state := some (obs_sched env) } with hS1
        obtain ⟨t2, l2, p2, ht⟩ := target_step_shape cfg env S1
        obtain ⟨act, hur, hlr, oref, lon, hst, lof, po, pt, trk, hb⟩ :=
          boiler_step_shape cfg env
            { S1 with target_temp := t2, preheat_latch := l2, preset_preheat := p2 }
        rw [ht, hb] at h ⊢
        constructor
        · intro hcon
          apply hOn
          have : some (obs_sched env) = some SchedState.on := hcon
          injection this
        · intro hcon
          exact Option.noConfusion hcon
      · set S1 : State := { s with last_schedule_state := some (obs_sched env) } with hS1
        obtain ⟨t2, l2, p2, ht⟩ := target_step_shape cfg env S1
        obtain ⟨act, hur, hlr, oref, lon, hst, lof, po, pt, trk, hb⟩ :=
          boiler_step_shape cfg env
            { S1 with target_temp := t2, preheat_latch := l2, preset_preheat := p2 }
        rw [ht, hb] at h ⊢
        refine ⟨?_, fun hcon => Option.noConfusion hcon⟩
        intro hcon
        have hobs : obs_sched env = SchedState.on := by injection hcon
        by_cases hS1l : s.preheat_latch = true
        · -- no transition observed and the state was latched: the recorded
          -- state equals the observation, which would have to be ON
          have hknown := hInv hS1l
          rcases hlast : s.last_schedule_state with _ | st
          · exact hknown.2 hlast
          · have : ¬ (some (obs_sched env) ≠ s.last_schedule_state) := fun hne =>
              hT ⟨by simp [hlast], hne⟩
            push_neg at this
            exact hknown.1 (by rw [← this, hobs])
        · have hset := target_step_latch_set cfg env S1 (by simpa [hS1] using hS1l)
            (by rw [ht]; exact h)
          exact hset.2.2.2 (by rw [hS1]; simpa using congrArg some hobs)

/-- A fresh latch in one invocation implies the resolver ran with the
override clear, so the result cannot have both flags set. -/
theorem run_no_fresh_latch_manual (hl : s.preheat_latch = false) :
    ¬ ((run_control_logic cfg env s).1.preheat_latch = true ∧
       (run_control_logic cfg env s).1.manual_mode = true) := by
  rintro ⟨hlatch, hman⟩
  by_cases hearly : s.current_temp = none ∨ s.hvac_mode = HVACMode.off
  · rw [run_control_logic_early cfg env s hearly] at hlatch
    obtain ⟨act, hur, hlr, oref, lon, hst, lof, po, pt, trk, hsh⟩ :=
      set_boiler_shape cfg env s false
    rw [hsh] at hlatch
    exact absurd hlatch (by simp [hl])
  · push_neg at hearly
    have hmode : s.hvac_mode = HVACMode.heat := by
      cases hm : s.hvac_mode
      · exact absurd hm hearly.2
      · rfl
    rw [run_control_logic_stages cfg env s hearly.1 hmode] at hlatch hman
    obtain ⟨m1, l1, ls1, hs1⟩ := schedule_step_shape cfg env s
    have hS1l : (schedule_step cfg env s).preheat_latch = false :=
      schedule_step_latch_false cfg env s hl
    rw [hs1] at hS1l hlatch hman
    obtain ⟨t2, l2, p2, ht⟩ := target_step_shape cfg env
      { s with manual_mode := m1, preheat_latch := l1, last_schedule_state := ls1 }
    obtain ⟨act, hur, hlr, oref, lon, hst, lof, po, pt, trk, hb⟩ :=
      boiler_step_shape cfg env
        { { s with manual_mode := m1, preheat_latch := l1, last_schedule_state := ls1 } with
            target_temp := t2, preheat_latch := l2, preset_preheat := p2 }
    rw [ht, hb] at hlatch hman
    have hset := target_step_latch_set cfg env
      { s with manual_mode := m1, preheat_latch := l1, last_schedule_state := ls1 }
      hS1l (by rw [ht]; exact hlatch)
    have hm1 : m1 = false := hset.2.2.1
    exact absurd hman (by simp [hm1])

/-- Across any single external trigger, a state with both the latch and
the override set can only come from a state that was already latched. -/
theorem step_no_fresh_latch_manual (e : Event) (hl : s.preheat_latch = false) :
    ¬ ((step cfg e s).preheat_latch = true ∧ (step cfg e s).manual_mode = true) := by
  cases e with
  | tickEv env => exact run_no_fresh_latch_manual cfg env s hl
  | setTempEv env t =>
      cases t with
      | none =>
          intro hcon
          exact absurd hcon.1 (by simp [step, set_temperature, hl])
      | some v =>
          exact run_no_fresh_latch_manual cfg env
            { s with target_temp := v, manual_mode := true } hl
  | setModeEv env m =>
      by_cases hm : m = HVACMode.off
      · subst hm
        have hstep : step cfg (Event.setModeEv env HVACMode.off) s =
            (run_control_logic cfg env
              (set_boiler cfg env false { s with hvac_mode := HVACMode.off }).1).1 := by
          show (set_hvac_mode cfg env HVACMode.off s).1 = _
          unfold set_hvac_mode
          simp
        rw [hstep]
        obtain ⟨act, hur, hlr, oref, lon, hst, lof, po, pt, trk, hsh⟩ :=
          set_boiler_shape cfg env { s with hvac_mode := HVACMode.off } false
        rw [hsh]
        exact run_no_fresh_latch_manual cfg env
          { { s with hvac_mode := HVACMode.off } with
              is_active_heating := act, heat_up_rate := hur, heat_loss_rate := hlr,
              outside_ref_temp := oref, last_on_time := lon, heat_start_temp := hst,
              last_off_time := lof, peak_temp_observed := po, peak_temp_time := pt,
              heat_loss_tracking_active := trk } hl
      · have hstep : step cfg (Event.setModeEv env m) s =
            (run_control_logic cfg env { s with hvac_mode := m }).1 := by
          show (set_hvac_mode cfg env m s).1 = _
          unfold set_hvac_mode
          simp [hm]
        rw [hstep]
        exact run_no_fresh_latch_manual cfg env { s with hvac_mode := m } hl
  | sensorEv env r =>
      cases r with
      | none =>
          intro hcon
          exact absurd hcon.1 (by simp [step, sensor_changed, hl])
      | some v =>
          have hstep : step cfg (Event.sensorEv env (some v)) s =
              (run_control_logic cfg env
                (if (cfg.enable_learning && !s.is_active_heating) = true then
                  update_off_cycle_stats cfg env { s with current_temp := some v }
                else { s with current_temp := some v })).1 := by
            show (sensor_changed cfg env (some v) s).1 = _
            unfold sensor_changed
            rfl
          rw [hstep]
          split_ifs with hlearn
          · obtain ⟨p, q, rr, b, hu⟩ :=
              update_off_cycle_stats_shape cfg env { s with current_temp := some v }
            rw [hu]
            exact run_no_fresh_latch_manual cfg env
              { { s with current_temp := some v } with
                  peak_temp_observed := p, peak_temp_time := q,
                  heat_loss_rate := rr, heat_loss_tracking_active := b } hl
          · exact run_no_fresh_latch_manual cfg env { s with current_temp := some v } hl

/-- The latch invariant for the step relation. -/
theorem step_latch_invariant (e : Event)
    (hInv : s.preheat_latch = true →
      s.last_schedule_state ≠ some SchedState.on ∧ s.last_schedule_state ≠ none)
    (h : (step cfg e s).preheat_latch = true) :
    (step cfg e s).last_schedule_state ≠ some SchedState.on ∧
    (step cfg e s).last_schedule_state ≠ none := by
  cases e with
  | tickEv env => exact run_latch_invariant cfg env s hInv h
  | setTempEv env t =>
      cases t with
      | none => exact hInv h
      | some v =>
          exact run_latch_invariant cfg env
            { s with target_temp := v, manual_mode := true } hInv h
  | setModeEv env m =>
      by_cases hm : m = HVACMode.off
      · subst hm
        have hstep : step cfg (Event.setModeEv env HVACMode.off) s =
            (run_control_logic cfg env
              (set_boiler cfg env false { s with hvac_mode := HVACMode.off }).1).1 := by
          show (set_hvac_mode cfg env HVACMode.off s).1 = _
          unfold set_hvac_mode
          simp
        rw [hstep] at h ⊢
        obtain ⟨act, hur, hlr, oref, lon, hst, lof, po, pt, trk, hsh⟩ :=
          set_boiler_shape cfg env { s with hvac_mode := HVACMode.off } false
        rw [hsh] at h ⊢
        exact run_latch_invariant cfg env
          { { s with hvac_mode := HVACMode.off } with
              is_active_heating := act, heat_up_rate := hur, heat_loss_rate := hlr,
              outside_ref_temp := oref, last_on_time := lon, heat_start_temp := hst,
              last_off_time := lof, peak_temp_observed := po, peak_temp_time := pt,
              heat_loss_tracking_active := trk } hInv h
      · have hstep : step cfg (Event.setModeEv env m) s =
            (run_control_logic cfg env { s with hvac_mode := m }).1 := by
          show (set_hvac_mode cfg env m s).1 = _
          unfold set_hvac_mode
          simp [hm]
        rw [hstep] at h ⊢
        exact run_latch_invariant cfg env { s with hvac_mode := m } hInv h
  | sensorEv env r =>
      cases r with
      | none => exact hInv h
      | some v =>
          have hstep : step cfg (Event.sensorEv env (some v)) s =
              (run_control_logic cfg env
                (if (cfg.enable_learning && !s.is_active_heating) = true then
                  update_off_cycle_stats cfg env { s with current_temp := some v }
                else { s with current_temp := some v })).1 := by
            show (sensor_changed cfg env (some v) s).1 = _
            unfold sensor_changed
            rfl
          rw [hstep] at h ⊢
          split_ifs at h ⊢ with hlearn
          · obtain ⟨p, q, rr, b, hu⟩ :=
              update_off_cycle_stats_shape cfg env { s with current_temp := some v }
            rw [hu] at h ⊢
            exact run_latch_invariant cfg env
              { { s with current_temp := some v } with
                  peak_temp_observed := p, peak_temp_time := q,
                  heat_loss_rate := rr, heat_loss_tracking_active := b } hInv h
          · exact run_latch_invariant cfg env { s with current_temp := some v } hInv h

theorem paramInv_of_learnedOk {a b : State} (h : ParamInv a) (l : LearnedOk a b) :
    ParamInv b := by
  obtain ⟨h1, h2, h3⟩ := h
  obtain ⟨l1, l2, l3⟩ := l
  refine ⟨?_, l3 ▸ h2, ?_⟩
  · rcases l1 with e | e
    · rw [e]; exact h1
    · exact e
  · rcases l2 with e | e
    · rw [e]; exact h3
    · exact Or.inr e

end Lemmas

/-! ## Claim C1 -/

/-- C1 (amended): whenever `current_temp` is `None` or the mode is OFF,
`_run_control_logic` reduces to `_set_boiler(False)` — no target
resolution, preheat or hysteresis/overshoot test runs, and with a
configured heater the state ends with the boiler commanded off; the
target, the manual and latch flags and the recorded schedule state are
untouched.  (The end-of-cycle heat-up-rate learning embedded in
`_set_boiler(False)` does still run when an active cycle is ended with
learning enabled — see the counterexample — so "no learning step runs"
had to be dropped from the original claim.) -/
theorem C1_safe_path (cfg : Config) (env : Env) (s : State)
    (h : s.current_temp = none ∨ s.hvac_mode = HVACMode.off) :
    run_control_logic cfg env s = set_boiler cfg env false s ∧
    (cfg.heater_entity = true → (run_control_logic cfg env s).1.is_active_heating = false) ∧
    (run_control_logic cfg env s).1.target_temp = s.target_temp ∧
    (run_control_logic cfg env s).1.manual_mode = s.manual_mode ∧
    (run_control_logic cfg env s).1.preheat_latch = s.preheat_latch ∧
    (run_control_logic cfg env s).1.last_schedule_state = s.last_schedule_state := by
  have he := run_control_logic_early cfg env s h
  obtain ⟨act, hur, hlr, oref, lon, hst, lof, po, pt, trk, hsh⟩ := set_boiler_shape cfg env s false
  refine ⟨he, fun hh => ?_, ?_, ?_, ?_, ?_⟩
  · rw [he]
    exact (set_boiler_false_result cfg env s hh).1
  all_goals rw [he, hsh]

/-- Witness for C1: the freshly initialized state has no temperature yet,
so the first control-loop run takes the safe path. -/
theorem C1_safe_path_witness :
    run_control_logic cfgC1 envC1 (initState cfgC1) =
      set_boiler cfgC1 envC1 false (initState cfgC1) ∧
    (cfgC1.heater_entity = true →
      (run_control_logic cfgC1 envC1 (initState cfgC1)).1.is_active_heating = false) ∧
    (run_control_logic cfgC1 envC1 (initState cfgC1)).1.target_temp =
      (initState cfgC1).target_temp ∧
    (run_control_logic cfgC1 envC1 (initState cfgC1)).1.manual_mode =
      (initState cfgC1).manual_mode ∧
    (run_control_logic cfgC1 envC1 (initState cfgC1)).1.preheat_latch =
      (initState cfgC1).preheat_latch ∧
    (run_control_logic cfgC1 envC1 (initState cfgC1)).1.last_schedule_state =
      (initState cfgC1).last_schedule_state :=
  C1_safe_path cfgC1 envC1 (initState cfgC1) (Or.inl rfl)

/-- Counterexample to C1 as stated: with the mode commanded OFF while an
active heating cycle holds a valid sample (19° after 30 min from 18°,
learning enabled), the safe path's `_set_boiler(False)` runs
`_learn_heat_up_rate`, which updates `heat_up_rate` (0.03 → 23/750) — a
learning step does run on this path. -/
theorem C1_counterexample :
    sC1.hvac_mode = HVACMode.off ∧
    (run_control_logic cfgC1 envC1 sC1).1.heat_up_rate ≠ sC1.heat_up_rate := by
  constructor
  · rfl
  · norm_num [run_control_logic, set_boiler, learn_heat_up_rate, truthy,
      get_outside_temp, sC1, envC1, cfgC1, initState]

/-! ## Claim C2 -/

/-- C2: if the boiler has been on since timestamp `t` (a real on-stamp,
hence nonzero) and more than `max_on_time` has elapsed, a control-loop
invocation with a known temperature and mode HEAT always ends with the
boiler off and a `turn_off` issued — regardless of whether the
temperature ever reached the normal cutoff. -/
theorem C2_watchdog (cfg : Config) (env : Env) (s : State) (c t : ℚ)
    (hmode : s.hvac_mode = HVACMode.heat) (hc : s.current_temp = some c)
    (hact : s.is_active_heating = true) (hton : s.last_on_time = some t) (ht0 : t ≠ 0)
    (helapsed : env.now - t > cfg.max_on_time) (hheater : cfg.heater_entity = true) :
    (run_control_logic cfg env s).1.is_active_heating = false ∧
    (run_control_logic cfg env s).2 = [Cmd.turn_off] := by
  have hcne : s.current_temp ≠ none := by simp [hc]
  rw [run_control_logic_stages cfg env s hcne hmode]
  obtain ⟨m, l, ls, h1⟩ := schedule_step_shape cfg env s
  obtain ⟨tt, lt, pp, h2⟩ := target_step_shape cfg env
    { s with manual_mode := m, preheat_latch := l, last_schedule_state := ls }
  rw [h1, h2]
  unfold boiler_step
  dsimp only
  simp only [hact, hc, hton, truthy_some, if_true, ite_true]
  have htr : ((t != 0) && decide (env.now - (some t).getD 0 > cfg.max_on_time)) = true := by
    simp [ht0, helapsed]
  split_ifs <;>
    exact ⟨(set_boiler_false_result cfg env _ hheater).1,
      (set_boiler_false_result cfg env _ hheater).2.1 rfl⟩

/-- Witness for C2: sensor stuck at 10° (target 15° is never reached),
boiler on for 490 min with max_on_time = 300 min — the tick shuts it
off. -/
theorem C2_watchdog_witness :
    (run_control_logic cfgC2 envC2 sC2).1.is_active_heating = false ∧
    (run_control_logic cfgC2 envC2 sC2).2 = [Cmd.turn_off] :=
  C2_watchdog cfgC2 envC2 sC2 10 600 rfl rfl rfl rfl
    (by norm_num) (by norm_num [envC2, cfgC2]) rfl

/-! ## Claim C3 -/

/-- C3 (amended): in the initial state and every state reachable from it,
`heat_up_rate ∈ [0.01, 1.0]` and `overshoot ∈ [0, 1.0]` hold, and
`heat_loss_rate` is either inside `[0.001, 0.5]` or still equal to its
default `-0.02` — which lies outside the claimed range, so the invariant
in its original form fails at the initial state (see the
counterexample).  In particular no sequence of learning samples drives
`heat_up_rate` or `heat_loss_rate` outside the clamp ranges. -/
theorem C3_param_invariant (cfg : Config) (s : State) (h : Reachable cfg s) :
    ParamInv s := by
  induction h with
  | refl =>
      refine ⟨?_, ?_, Or.inl rfl⟩ <;> norm_num [initState]
  | tail hab hbc ih =>
      obtain ⟨e, rfl⟩ := hbc
      exact paramInv_of_learnedOk ih (step_learnedOk cfg _ e)

/-- Witness for C3: the invariant holds at the (reachable) initial
state. -/
theorem C3_param_invariant_witness : ParamInv (initState cfgC3) :=
  C3_param_invariant cfgC3 (initState cfgC3) Relation.ReflTransGen.refl

/-- Counterexample to C3 as stated: the reachable initial state carries
the default `heat_loss_rate = -0.02`, outside the claimed `[0.001, 0.5]`
range. -/
theorem C3_counterexample :
    Reachable cfgC3 (initState cfgC3) ∧
    (initState cfgC3).heat_loss_rate = -0.02 ∧
    ¬ (0.001 ≤ (initState cfgC3).heat_loss_rate) :=
  ⟨Relation.ReflTransGen.refl, rfl, by norm_num [initState]⟩

/-! ## Claim C4 -/

/-- C4: with a configured schedule, mode HEAT and a known temperature:
(1) an observed schedule transition (previous state known and different)
clears `manual_mode` in that same tick, and if the new state is ON it
also clears `preheat_latch` and resolves `target_temp` to comfort-temp;
(2) while `manual_mode` holds and no transition is observed, the tick
leaves `target_temp` (and the flag) untouched. -/
theorem C4_manual_override (cfg : Config) (env : Env) (s : State) (c : ℚ)
    (hmode : s.hvac_mode = HVACMode.heat) (hc : s.current_temp = some c)
    (hsched : cfg.schedule_entity = true) :
    (∀ st, s.last_schedule_state = some st → obs_sched env ≠ st →
      ((run_control_logic cfg env s).1.manual_mode = false ∧
       (obs_sched env = SchedState.on →
         (run_control_logic cfg env s).1.preheat_latch = false ∧
         (run_control_logic cfg env s).1.target_temp = cfg.comfort_temp))) ∧
    (s.manual_mode = true →
      (s.last_schedule_state = none ∨ s.last_schedule_state = some (obs_sched env)) →
      ((run_control_logic cfg env s).1.target_temp = s.target_temp ∧
       (run_control_logic cfg env s).1.manual_mode = true)) := by
  have hcne : s.current_temp ≠ none := by simp [hc]
  rw [run_control_logic_stages cfg env s hcne hmode, schedule_step_eq cfg env s hsched]
  constructor
  · intro st hst hne
    rw [if_pos ⟨by simp [hst], by simp [hst]; exact fun h => hne (h ▸ rfl)⟩]
    set S1 : State :=
      { s with manual_mode := false,
               preheat_latch :=
                 if obs_sched env = SchedState.on then false else s.preheat_latch,
               last_schedule_state := some (obs_sched env) } with hS1
    constructor
    · obtain ⟨t, l, p, h2⟩ := target_step_shape cfg env S1
      rw [h2]
      obtain ⟨act, hur, hlr, oref, lon, hst2, lof, po, pt, trk, h3⟩ :=
        boiler_step_shape cfg env
          { S1 with target_temp := t, preheat_latch := l, preset_preheat := p }
      rw [h3]
    · intro hon
      have hcomf := target_step_comfort cfg env S1 rfl hsched (by simp [hS1, hon])
      rw [hcomf]
      obtain ⟨act, hur, hlr, oref, lon, hst2, lof, po, pt, trk, h3⟩ :=
        boiler_step_shape cfg env
          { S1 with target_temp := cfg.comfort_temp, preset_preheat := false }
      rw [h3]
      constructor
      · show (if obs_sched env = SchedState.on then false else s.preheat_latch) = false
        rw [if_pos hon]
      · rfl
  · intro hm hsame
    rw [if_neg (by rcases hsame with h | h <;> simp [h])]
    set S1 : State := { s with last_schedule_state := some (obs_sched env) } with hS1
    have hman := target_step_manual cfg env S1 (by simp [hS1, hm])
    rw [hman]
    obtain ⟨act, hur, hlr, oref, lon, hst2, lof, po, pt, trk, h3⟩ :=
      boiler_step_shape cfg env S1
    rw [h3]
    exact ⟨rfl, hm⟩

/-- Witness for C4: manual target 23° set while the schedule was OFF;
the observed OFF→ON transition clears the override and the latch and
recomputes the target to comfort (21°). -/
theorem C4_manual_override_witness :
    (∀ st, sC4.last_schedule_state = some st → obs_sched envC4 ≠ st →
      ((run_control_logic cfgC4 envC4 sC4).1.manual_mode = false ∧
       (obs_sched envC4 = SchedState.on →
         (run_control_logic cfgC4 envC4 sC4).1.preheat_latch = false ∧
         (run_control_logic cfgC4 envC4 sC4).1.target_temp = cfgC4.comfort_temp))) ∧
    (sC4.manual_mode = true →
      (sC4.last_schedule_state = none ∨ sC4.last_schedule_state = some (obs_sched envC4)) →
      ((run_control_logic cfgC4 envC4 sC4).1.target_temp = sC4.target_temp ∧
       (run_control_logic cfgC4 envC4 sC4).1.manual_mode = true)) :=
  C4_manual_override cfgC4 envC4 sC4 20.5 rfl rfl rfl

/-! ## Claim C5 -/

/-- C5: with preheat enabled, a set `preheat_latch`, mode HEAT, a known
temperature and no observed transition to schedule-ON: the latch survives
the tick, and — whenever the resolver actually runs (not manually
overridden, or the override is being cleared by a transition) — the
target resolves to comfort-temp regardless of the ETA computation
(current/outdoor temperatures and learned rate are universally
quantified here).  Moreover, across *any* single external trigger, a set
latch can become false only when the observed schedule state is ON and
differs from the recorded one: preheat never disengages before the
schedule turns ON. -/
theorem C5_latch_sticky (cfg : Config) (env : Env) (s : State) (c : ℚ)
    (hmode : s.hvac_mode = HVACMode.heat) (hc : s.current_temp = some c)
    (hsched : cfg.schedule_entity = true) (hpre : cfg.enable_preheat = true)
    (hl : s.preheat_latch = true)
    (hnc : ¬ (obs_sched env = SchedState.on ∧ s.last_schedule_state ≠ none ∧
              s.last_schedule_state ≠ some SchedState.on)) :
    (run_control_logic cfg env s).1.preheat_latch = true ∧
    ((s.manual_mode = false ∨
        (s.last_schedule_state ≠ none ∧ some (obs_sched env) ≠ s.last_schedule_state)) →
      (run_control_logic cfg env s).1.target_temp = cfg.comfort_temp) ∧
    (∀ e : Event, (step cfg e s).preheat_latch = false →
      (obs_sched (Event.envOf e) = SchedState.on ∧ s.last_schedule_state ≠ none ∧
       s.last_schedule_state ≠ some SchedState.on)) := by
  refine ⟨?_, ?_, ?_⟩
  · by_contra hfalse
    have hcl := run_latch_clear_only cfg env s hl (by simpa using hfalse)
    exact hnc ⟨hcl.2.1, hcl.2.2.1, hcl.2.2.2⟩
  · intro hmor
    rw [run_control_logic_stages cfg env s (by simp [hc]) hmode,
      schedule_step_eq cfg env s hsched]
    by_cases hT : (s.last_schedule_state.isSome = true ∧
        some (obs_sched env) ≠ s.last_schedule_state)
    · rw [if_pos hT]
      by_cases hon : obs_sched env = SchedState.on
      · exfalso
        apply hnc
        refine ⟨hon, Option.isSome_iff_ne_none.mp hT.1, ?_⟩
        intro hcontra
        exact hT.2 (by rw [hcontra, hon])
      · set S1 : State :=
          { s with manual_mode := false,
                   preheat_latch :=
                     if obs_sched env = SchedState.on then false else s.preheat_latch,
                   last_schedule_state := some (obs_sched env) } with hS1
        have hlS1 : S1.preheat_latch = true := by
          show (if obs_sched env = SchedState.on then false else s.preheat_latch) = true
          rw [if_neg hon]
          exact hl
        have htgt := target_step_preheat cfg env S1 rfl hsched (by simp [hS1, hon]) hpre
        rw [preheat_decision_latched cfg env S1 hlS1] at htgt
        simp only [if_true, ite_true] at htgt
        rw [htgt]
        obtain ⟨act, hur, hlr, oref, lon, hst2, lof, po, pt, trk, hb⟩ :=
          boiler_step_shape cfg env
            { S1 with target_temp := cfg.comfort_temp,
                      preheat_latch := (true, true).2, preset_preheat := true }
        rw [hb]
    · rw [if_neg hT]
      have hm : s.manual_mode = false := by
        rcases hmor with h | h
        · exact h
        · exact absurd ⟨Option.isSome_iff_ne_none.mpr h.1, h.2⟩ hT
      set S1 : State := { s with last_schedule_state := some (obs_sched env) } with hS1
      by_cases hon : obs_sched env = SchedState.on
      · have htgt := target_step_comfort cfg env S1 (by simp [hS1, hm])
          hsched (by simp [hS1, hon])
        rw [htgt]
        obtain ⟨act, hur, hlr, oref, lon, hst2, lof, po, pt, trk, hb⟩ :=
          boiler_step_shape cfg env
            { S1 with target_temp := cfg.comfort_temp, preset_preheat := false }
        rw [hb]
      · have htgt := target_step_preheat cfg env S1 (by simp [hS1, hm]) hsched
          (by simp [hS1, hon]) hpre
        rw [preheat_decision_latched cfg env S1 (by simpa [hS1] using hl)] at htgt
        simp only [if_true, ite_true] at htgt
        rw [htgt]
        obtain ⟨act, hur, hlr, oref, lon, hst2, lof, po, pt, trk, hb⟩ :=
          boiler_step_shape cfg env
            { S1 with target_temp := cfg.comfort_temp,
                      preheat_latch := (true, true).2, preset_preheat := true }
        rw [hb]
  · intro e he
    have hcl := step_latch_clear_only cfg s e hl he
    exact ⟨hcl.2.1, hcl.2.2.1, hcl.2.2.2⟩

/-- Witness for C5: latched at 17° with the next ON 100000 s away (the
raw ETA would say "do not engage"), schedule still OFF: the latch holds
and the target stays at comfort 20°. -/
theorem C5_latch_sticky_witness :
    (run_control_logic cfgC5 envC5 sC5).1.preheat_latch = true ∧
    ((sC5.manual_mode = false ∨
        (sC5.last_schedule_state ≠ none ∧
         some (obs_sched envC5) ≠ sC5.last_schedule_state)) →
      (run_control_logic cfgC5 envC5 sC5).1.target_temp = cfgC5.comfort_temp) ∧
    (∀ e : Event, (step cfgC5 e sC5).preheat_latch = false →
      (obs_sched (Event.envOf e) = SchedState.on ∧ sC5.last_schedule_state ≠ none ∧
       sC5.last_schedule_state ≠ some SchedState.on)) :=
  C5_latch_sticky cfgC5 envC5 sC5 17 rfl rfl rfl rfl rfl (by decide)

/-! ## Claim C6 -/

/-- C6: the preheat scheduler's math.  With preheat enabled, no latch, no
manual override, schedule observed not-ON and a known next-ON time `ns`:
a non-positive deficit never engages; with a positive deficit the tick
engages (target comfort, latch set, preset "preheat") exactly when
`now ≥ ns − minutes_needed·60`, where
`minutes_needed = min(deficit / adjusted_rate, max_preheat_time)` and
`adjusted_rate` is the spec's weather-penalty formula
(`spec_adjusted_rate`; with a missing outdoor reading it is
`heat_up_rate` itself). -/
theorem C6_preheat_math (cfg : Config) (env : Env) (s : State) (c ns : ℚ) (st : SchedState)
    (hmode : s.hvac_mode = HVACMode.heat) (hc : s.current_temp = some c)
    (hsched : cfg.schedule_entity = true) (hpre : cfg.enable_preheat = true)
    (hl : s.preheat_latch = false) (hm : s.manual_mode = false)
    (hst : env.sched_state = some st) (hnoton : obs_sched env ≠ SchedState.on)
    (hnext : env.next_event = some ns) (hrate : 0 < s.heat_up_rate) :
    (cfg.comfort_temp - c ≤ 0 →
      (run_control_logic cfg env s).1.target_temp = cfg.setback_temp ∧
      (run_control_logic cfg env s).1.preheat_latch = false) ∧
    (cfg.comfort_temp - c > 0 →
      (env.now ≥
          ns - min ((cfg.comfort_temp - c) /
                spec_adjusted_rate s.heat_up_rate s.outside_ref_temp
                  cfg.weather_sensitivity (get_outside_temp cfg env))
              cfg.max_preheat_time * 60 →
        (run_control_logic cfg env s).1.target_temp = cfg.comfort_temp ∧
        (run_control_logic cfg env s).1.preheat_latch = true ∧
        (run_control_logic cfg env s).1.preset_preheat = true) ∧
      (¬ (env.now ≥
            ns - min ((cfg.comfort_temp - c) /
                  spec_adjusted_rate s.heat_up_rate s.outside_ref_temp
                    cfg.weather_sensitivity (get_outside_temp cfg env))
                cfg.max_preheat_time * 60) →
        (run_control_logic cfg env s).1.target_temp = cfg.setback_temp ∧
        (run_control_logic cfg env s).1.preheat_latch = false)) := by
  obtain ⟨S1, hS1eq, hS1man, hS1latch, hS1last, hS1cur, hS1rate, hS1ref⟩ :
      ∃ S1 : State, schedule_step cfg env s = S1 ∧ S1.manual_mode = false ∧
        S1.preheat_latch = false ∧ S1.last_schedule_state = some (obs_sched env) ∧
        S1.current_temp = some c ∧ S1.heat_up_rate = s.heat_up_rate ∧
        S1.outside_ref_temp = s.outside_ref_temp := by
    by_cases hT : (s.last_schedule_state.isSome = true ∧
        some (obs_sched env) ≠ s.last_schedule_state)
    · rw [schedule_step_eq cfg env s hsched, if_pos hT, if_neg hnoton]
      exact ⟨_, rfl, rfl, hl, rfl, hc, rfl, rfl⟩
    · rw [schedule_step_eq cfg env s hsched, if_neg hT]
      exact ⟨_, rfl, hm, hl, rfl, hc, rfl, rfl⟩
  rw [run_control_logic_stages cfg env s (by simp [hc]) hmode, hS1eq]
  have hns : get_next_schedule_start cfg env = some ns :=
    get_next_schedule_start_eq cfg env st ns hsched hst hnext
  have heval := target_step_preheat_eval cfg env S1 c ns hS1man hsched
    (by rw [hS1last]; simp [hnoton]) hpre hS1latch hS1cur hns
  have hconv : adjusted_heat_rate cfg env S1 =
      spec_adjusted_rate s.heat_up_rate s.outside_ref_temp cfg.weather_sensitivity
        (get_outside_temp cfg env) := by
    rw [adjusted_heat_rate_spec cfg env S1, hS1rate, hS1ref]
  rw [hconv] at heval
  refine ⟨fun hdle => ?_, fun hdiff => ⟨fun hE => ?_, fun hE => ?_⟩⟩
  · rw [heval, if_neg (not_lt.mpr hdle)]
    obtain ⟨act, hur, hlr, oref, lon, hst2, lof, po, pt, trk, hb⟩ :=
      boiler_step_shape cfg env
        { S1 with target_temp := cfg.setback_temp, preheat_latch := false,
                  preset_preheat := false }
    rw [hb]
    exact ⟨rfl, rfl⟩
  · rw [heval, if_pos hdiff, if_pos hE]
    obtain ⟨act, hur, hlr, oref, lon, hst2, lof, po, pt, trk, hb⟩ :=
      boiler_step_shape cfg env
        { S1 with target_temp := cfg.comfort_temp, preheat_latch := true,
                  preset_preheat := true }
    rw [hb]
    exact ⟨rfl, rfl, rfl⟩
  · rw [heval, if_pos hdiff, if_neg hE]
    obtain ⟨act, hur, hlr, oref, lon, hst2, lof, po, pt, trk, hb⟩ :=
      boiler_step_shape cfg env
        { S1 with target_temp := cfg.setback_temp, preheat_latch := false,
                  preset_preheat := false }
    rw [hb]
    exact ⟨rfl, rfl⟩

/-- Witness for C6, the spec's end-to-end example: rate 0.05 °/min,
comfort 20°, current 17° ⇒ deficit 3°, minutes_needed = min(60, 180) =
60; with next ON 3600 s away and now = T−60 min exactly, preheat
engages. -/
theorem C6_preheat_math_witness :
    (cfgC6.comfort_temp - 17 ≤ 0 →
      (run_control_logic cfgC6 envC6 sC6).1.target_temp = cfgC6.setback_temp ∧
      (run_control_logic cfgC6 envC6 sC6).1.preheat_latch = false) ∧
    (cfgC6.comfort_temp - 17 > 0 →
      (envC6.now ≥
          3600 - min ((cfgC6.comfort_temp - 17) /
                spec_adjusted_rate sC6.heat_up_rate sC6.outside_ref_temp
                  cfgC6.weather_sensitivity (get_outside_temp cfgC6 envC6))
              cfgC6.max_preheat_time * 60 →
        (run_control_logic cfgC6 envC6 sC6).1.target_temp = cfgC6.comfort_temp ∧
        (run_control_logic cfgC6 envC6 sC6).1.preheat_latch = true ∧
        (run_control_logic cfgC6 envC6 sC6).1.preset_preheat = true) ∧
      (¬ (envC6.now ≥
            3600 - min ((cfgC6.comfort_temp - 17) /
                  spec_adjusted_rate sC6.heat_up_rate sC6.outside_ref_temp
                    cfgC6.weather_sensitivity (get_outside_temp cfgC6 envC6))
                cfgC6.max_preheat_time * 60) →
        (run_control_logic cfgC6 envC6 sC6).1.target_temp = cfgC6.setback_temp ∧
        (run_control_logic cfgC6 envC6 sC6).1.preheat_latch = false)) :=
  C6_preheat_math cfgC6 envC6 sC6 17 3600 SchedState.off rfl rfl rfl rfl rfl rfl
    rfl (by decide) rfl (by norm_num [sC6, initState, cfgC6])

/-! ## Claim C7 -/

/-- C7 (amended): with the cycle-tracking fields present and nonzero
(`last_on_time = t ≠ 0`, `heat_cycle_start_temp = h0 ≠ 0`,
`current_temp = c ≠ 0` — the Python guards are truthiness tests), the
heat-up-rate estimator updates iff `duration ≥ min_burn_time` minutes and
`delta = c − h0 ≥ 0.2°`; too-short or too-small samples are discarded
with no state change.  An accepted sample sets
`heat_up_rate := clamp(0.01, 1.0, 0.8·old + 0.2·delta/duration)` and,
when an outdoor reading is available,
`outside_ref_temp := 0.8·old + 0.2·outdoor` (unchanged otherwise);
`heat_loss_rate` and `overshoot` are untouched.  Implausibly *large*
samples are NOT discarded — the EMA runs and the clamp caps the rate at
1.0 (see the counterexample). -/
theorem C7_learning_gate (cfg : Config) (env : Env) (s : State) (t h0 c : ℚ)
    (hton : s.last_on_time = some t) (ht0 : t ≠ 0)
    (hhs : s.heat_start_temp = some h0) (hh0 : h0 ≠ 0)
    (hc : s.current_temp = some c) (hc0 : c ≠ 0) :
    ((env.now - t) / 60 < cfg.min_burn_time ∨ c - h0 < 0.2 →
      learn_heat_up_rate cfg env s = s) ∧
    ((env.now - t) / 60 ≥ cfg.min_burn_time → c - h0 ≥ 0.2 →
      ((learn_heat_up_rate cfg env s).heat_up_rate =
          max 0.01 (min 1 (0.8 * s.heat_up_rate + 0.2 * ((c - h0) / ((env.now - t) / 60)))) ∧
       (∀ o, get_outside_temp cfg env = some o →
          (learn_heat_up_rate cfg env s).outside_ref_temp =
            0.8 * s.outside_ref_temp + 0.2 * o) ∧
       (get_outside_temp cfg env = none →
          (learn_heat_up_rate cfg env s).outside_ref_temp = s.outside_ref_temp) ∧
       (learn_heat_up_rate cfg env s).heat_loss_rate = s.heat_loss_rate ∧
       (learn_heat_up_rate cfg env s).overshoot_temp = s.overshoot_temp)) := by
  have hguard : (!truthy s.last_on_time || !truthy s.heat_start_temp ||
      !truthy s.current_temp) = false := by
    simp [truthy, hton, hhs, hc, ht0, hh0, hc0]
  constructor
  · intro hrej
    unfold learn_heat_up_rate
    rw [hguard]
    simp only [Bool.false_eq_true, if_false, hton, hhs, hc, Option.getD_some]
    rcases hrej with h | h
    · rw [if_pos h]
    · by_cases hd : (env.now - t) / 60 < cfg.min_burn_time
      · rw [if_pos hd]
      · rw [if_neg hd, if_pos h]
  · intro hdur hdelta
    unfold learn_heat_up_rate
    rw [hguard]
    simp only [Bool.false_eq_true, if_false, hton, hhs, hc, Option.getD_some]
    rw [if_neg (not_lt.mpr hdur), if_neg (not_lt.mpr hdelta)]
    have harith : s.heat_up_rate * 0.8 + (c - h0) / ((env.now - t) / 60) * 0.2 =
        0.8 * s.heat_up_rate + 0.2 * ((c - h0) / ((env.now - t) / 60)) := by ring
    rcases get_outside_temp cfg env with _ | o <;> dsimp only
    · exact ⟨by rw [harith], fun o2 h2 => absurd h2 (by simp),
        fun _ => rfl, rfl, rfl⟩
    · refine ⟨by rw [harith], fun o2 h2 => ?_, fun h2 => absurd h2 (by simp), rfl, rfl⟩
      obtain rfl : o = o2 := by injection h2
      show s.outside_ref_temp * 0.8 + o * 0.2 = 0.8 * s.outside_ref_temp + 0.2 * o
      ring

/-- Witness for C7: a clean accepted sample — on since t = 600 s, 30
minutes of burn (envC1.now = 2400 s), 18° → 19° (delta 1°), no outdoor
reading. -/
theorem C7_learning_gate_witness :
    ((envC1.now - 600) / 60 < cfgC7.min_burn_time ∨ (19 : ℚ) - 18 < 0.2 →
      learn_heat_up_rate cfgC7 envC1 sC7w = sC7w) ∧
    ((envC1.now - 600) / 60 ≥ cfgC7.min_burn_time → (19 : ℚ) - 18 ≥ 0.2 →
      ((learn_heat_up_rate cfgC7 envC1 sC7w).heat_up_rate =
          max 0.01 (min 1 (0.8 * sC7w.heat_up_rate +
            0.2 * (((19 : ℚ) - 18) / ((envC1.now - 600) / 60)))) ∧
       (∀ o, get_outside_temp cfgC7 envC1 = some o →
          (learn_heat_up_rate cfgC7 envC1 sC7w).outside_ref_temp =
            0.8 * sC7w.outside_ref_temp + 0.2 * o) ∧
       (get_outside_temp cfgC7 envC1 = none →
          (learn_heat_up_rate cfgC7 envC1 sC7w).outside_ref_temp =
            sC7w.outside_ref_temp) ∧
       (learn_heat_up_rate cfgC7 envC1 sC7w).heat_loss_rate = sC7w.heat_loss_rate ∧
       (learn_heat_up_rate cfgC7 envC1 sC7w).overshoot_temp = sC7w.overshoot_temp)) :=
  C7_learning_gate cfgC7 envC1 sC7w 600 18 19 rfl (by norm_num) rfl (by norm_num)
    rfl (by norm_num)

/-- Counterexample to C7 as stated: the implausibly large 10 °/min sample
(100° rise in a 10-minute burn) is not discarded — the ACTIVE→IDLE
transition runs the EMA and the clamp caps `heat_up_rate` at 1.0
(changed from 0.03). -/
theorem C7_counterexample :
    (set_boiler cfgC7 envC7 false sC7).1.is_active_heating = false ∧
    (set_boiler cfgC7 envC7 false sC7).1.heat_up_rate = 1 ∧
    (set_boiler cfgC7 envC7 false sC7).1.heat_up_rate ≠ sC7.heat_up_rate := by
  refine ⟨?_, ?_, ?_⟩ <;>
    norm_num [set_boiler, learn_heat_up_rate, truthy, get_outside_temp,
      sC7, envC7, cfgC7, initState]

/-! ## Claim C8: concrete three-step run -/

theorem stepC8a_eq : step cfgC8 eC8a (initState cfgC8) = sC8a := by
  norm_num [step, eC8a, envC8a, set_hvac_mode, run_control_logic, set_boiler, truthy,
    initState, cfgC8, sC8a]

theorem stepC8b_eq : step cfgC8 eC8b sC8a = sC8b := by
  have h1 : schedule_step cfgC8 envC8b sC8curr = sC8sched := by
    norm_num [schedule_step, obs_sched, envC8b, sC8curr, sC8a, initState, cfgC8, sC8sched]
  have h2 : target_step cfgC8 envC8b sC8sched = sC8tgt := by
    norm_num [target_step, preheat_decision, minutes_needed, adjusted_heat_rate,
      get_next_schedule_start, get_outside_temp, envC8b, sC8sched, sC8curr, sC8a,
      initState, cfgC8, sC8tgt]
    all_goals decide
  have h3 : boiler_step cfgC8 envC8b sC8tgt = (sC8b, [Cmd.turn_on]) := by
    norm_num [boiler_step, set_boiler, truthy, envC8b, sC8tgt, sC8sched, sC8curr,
      sC8a, initState, cfgC8, sC8b]
  have h0 : step cfgC8 eC8b sC8a = (run_control_logic cfgC8 envC8b sC8curr).1 := by
    simp [step, eC8b, sensor_changed, envC8b, cfgC8, sC8curr, sC8a, initState]
  rw [h0]
  rw [show run_control_logic cfgC8 envC8b sC8curr
      = boiler_step cfgC8 envC8b (target_step cfgC8 envC8b (schedule_step cfgC8 envC8b sC8curr)) from by
    simp [run_control_logic, sC8curr, sC8a, initState]]
  rw [h1, h2, h3]

theorem stepC8u_eq : step cfgC8 eC8u sC8b = sC8u := by
  have h1 : schedule_step cfgC8 envC8u sC8b = sC8u := by
    norm_num [schedule_step, obs_sched, envC8u, sC8u, sC8b, sC8tgt, sC8sched, sC8curr,
      sC8a, initState, cfgC8,
      show ¬ (SchedState.unavail = SchedState.off) from by decide,
      show ¬ (SchedState.unavail = SchedState.on) from by decide]
  have h2 : target_step cfgC8 envC8u sC8u = sC8u := by
    norm_num [target_step, preheat_decision, envC8u, sC8u, sC8b, sC8tgt, sC8sched,
      sC8curr, sC8a, initState, cfgC8]
    all_goals decide
  have h3 : boiler_step cfgC8 envC8u sC8u = (sC8u, []) := by
    norm_num [boiler_step, set_boiler, truthy, envC8u, sC8u, sC8b, sC8tgt, sC8sched,
      sC8curr, sC8a, initState, cfgC8]
  have h0 : step cfgC8 eC8u sC8b = (run_control_logic cfgC8 envC8u sC8b).1 := by
    simp [step, eC8u]
  rw [h0]
  rw [show run_control_logic cfgC8 envC8u sC8b
      = boiler_step cfgC8 envC8u (target_step cfgC8 envC8u (schedule_step cfgC8 envC8u sC8b)) from by
    simp [run_control_logic, sC8b, sC8tgt, sC8sched, sC8curr, sC8a, initState]]
  rw [h1, h2, h3]

theorem stepC8d_eq : step cfgC8 eC8d sC8u = sC8d := by
  have h1 : schedule_step cfgC8 envC8d sC8d = sC8d := by
    norm_num [schedule_step, obs_sched, envC8d, sC8d, sC8u, sC8b, sC8tgt, sC8sched,
      sC8curr, sC8a, initState, cfgC8]
  have h2 : target_step cfgC8 envC8d sC8d = sC8d := by
    norm_num [target_step, sC8d, sC8u, sC8b, sC8tgt, sC8sched, sC8curr, sC8a, initState,
      cfgC8]
  have h3 : boiler_step cfgC8 envC8d sC8d = (sC8d, []) := by
    norm_num [boiler_step, set_boiler, truthy, envC8d, sC8d, sC8u, sC8b, sC8tgt,
      sC8sched, sC8curr, sC8a, initState, cfgC8]
  have h0 : step cfgC8 eC8d sC8u = (run_control_logic cfgC8 envC8d sC8d).1 := by
    simp [step, eC8d, set_temperature, envC8d, sC8d, sC8u, sC8b, sC8tgt, sC8sched,
      sC8curr, sC8a, initState]
  rw [h0]
  rw [show run_control_logic cfgC8 envC8d sC8d
      = boiler_step cfgC8 envC8d (target_step cfgC8 envC8d (schedule_step cfgC8 envC8d sC8d)) from by
    simp [run_control_logic, sC8d, sC8u, sC8b, sC8tgt, sC8sched, sC8curr, sC8a, initState]]
  rw [h1, h2, h3]

theorem reachC8b : Reachable cfgC8 sC8b :=
  Relation.ReflTransGen.tail
    (Relation.ReflTransGen.tail Relation.ReflTransGen.refl ⟨eC8a, stepC8a_eq.symm⟩)
    ⟨eC8b, stepC8b_eq.symm⟩

theorem reachC8u : Reachable cfgC8 sC8u :=
  Relation.ReflTransGen.tail reachC8b ⟨eC8u, stepC8u_eq.symm⟩

theorem reachC8d : Reachable cfgC8 sC8d :=
  Relation.ReflTransGen.tail reachC8u ⟨eC8d, stepC8d_eq.symm⟩

/-- C8 (amended): in every reachable state, `preheat_latch` can be true
only while the recorded schedule state is known and not ON; and the
resolver sets the latch only with `manual_override` clear — from any
unlatched state, no single operation can produce a state with both
`preheat_latch` and `manual_override` true.  The original claim fails in
both conjuncts: `async_set_temperature` on an *already latched* state
sets `manual_override` without clearing the latch, and a schedule entity
that goes UNAVAILABLE while latched keeps the latch with the recorded
schedule state not OFF (see the counterexample). -/
theorem C8_latch_flags (cfg : Config) (s : State) :
    (Reachable cfg s → s.preheat_latch = true →
      s.last_schedule_state ≠ some SchedState.on ∧ s.last_schedule_state ≠ none) ∧
    (s.preheat_latch = false → ∀ e : Event,
      ¬ ((step cfg e s).preheat_latch = true ∧ (step cfg e s).manual_mode = true)) := by
  constructor
  · intro hreach
    induction hreach with
    | refl => intro hl; exact absurd hl (by simp [initState])
    | tail hab hbc ih =>
        obtain ⟨e, rfl⟩ := hbc
        intro hl
        exact step_latch_invariant cfg _ e ih hl
  · intro hl e
    exact step_no_fresh_latch_manual cfg _ e hl

/-- Witness for C8: the latched state reached after the three-step run
records the schedule as OFF (known, not ON); and from the fresh initial
state no single trigger yields both flags. -/
theorem C8_latch_flags_witness :
    (sC8b.last_schedule_state ≠ some SchedState.on ∧ sC8b.last_schedule_state ≠ none) ∧
    ¬ ((step cfgC8 eC8c (initState cfgC8)).preheat_latch = true ∧
       (step cfgC8 eC8c (initState cfgC8)).manual_mode = true) :=
  ⟨(C8_latch_flags cfgC8 sC8b).1 reachC8b rfl,
   (C8_latch_flags cfgC8 (initState cfgC8)).2 rfl eC8c⟩

/-- Counterexample to C8 as stated: a reachable state (HEAT mode, sensor
17° latches preheat, the schedule entity goes unavailable, then
`set_target_temperature 22`) with `preheat_latch` and `manual_override`
both true while the recorded schedule state is UNAVAILABLE, not OFF. -/
theorem C8_counterexample :
    Reachable cfgC8 sC8d ∧ sC8d.preheat_latch = true ∧ sC8d.manual_mode = true ∧
      sC8d.last_schedule_state = some SchedState.unavail :=
  ⟨reachC8d, rfl, rfl, rfl⟩

/-- C9: `_calculate_next_fire_time` — embedded as the pure function
`calculate_next_fire_time`, which returns a value and touches no state —
returns "now" when the boiler is active or the schedule is currently ON;
with no next scheduled start it returns nothing; otherwise it returns the
next start verbatim when preheat is disabled or the deficit is ≤ 0, and
else the next start minus the same `minutes_needed` lead time used by the
preheat scheduler, clamped to be no earlier than "now". -/
theorem C9_next_fire (cfg : Config) (env : Env) (s : State) :
    (s.is_active_heating = true → calculate_next_fire_time cfg env s = some env.now) ∧
    (s.is_active_heating = false →
      (cfg.schedule_entity && (env.sched_state == some SchedState.on)) = true →
      calculate_next_fire_time cfg env s = some env.now) ∧
    (s.is_active_heating = false →
      (cfg.schedule_entity && (env.sched_state == some SchedState.on)) = false →
      get_next_schedule_start cfg env = none →
      calculate_next_fire_time cfg env s = none) ∧
    (∀ ns : ℚ, s.is_active_heating = false →
      (cfg.schedule_entity && (env.sched_state == some SchedState.on)) = false →
      get_next_schedule_start cfg env = some ns →
      (cfg.enable_preheat = false → calculate_next_fire_time cfg env s = some ns) ∧
      (cfg.enable_preheat = true →
        (cfg.comfort_temp - s.current_temp.getD cfg.setback_temp ≤ 0 →
          calculate_next_fire_time cfg env s = some ns) ∧
        (0 < cfg.comfort_temp - s.current_temp.getD cfg.setback_temp →
          calculate_next_fire_time cfg env s =
            some (max env.now
              (ns - minutes_needed cfg env s
                (cfg.comfort_temp - s.current_temp.getD cfg.setback_temp) * 60))))) := by
  refine ⟨?_, ?_, ?_, ?_⟩
  · intro h
    simp [calculate_next_fire_time, h]
  · intro h hsch
    simp [calculate_next_fire_time, h, hsch]
  · intro h hsch hns
    simp [calculate_next_fire_time, h, hsch, hns]
  · intro ns h hsch hns
    refine ⟨?_, ?_⟩
    · intro hp
      simp [calculate_next_fire_time, h, hsch, hns, hp]
    · intro hp
      refine ⟨?_, ?_⟩
      · intro hd
        simp [calculate_next_fire_time, h, hsch, hns, hp, hd]
      · intro hd
        have hd' : ¬ (cfg.comfort_temp - s.current_temp.getD cfg.setback_temp ≤ 0) :=
          not_le.mpr hd
        simp only [calculate_next_fire_time, h, hsch, hns, hp, hd', Bool.false_eq_true,
          if_false, ite_false, Bool.not_true, ite_true]
        rcases lt_or_ge (ns - minutes_needed cfg env s
            (cfg.comfort_temp - s.current_temp.getD cfg.setback_temp) * 60) env.now with
          hlt | hge
        · rw [if_pos hlt]
          exact congrArg some (max_eq_left (le_of_lt hlt)).symm
        · rw [if_neg (not_lt.mpr hge)]
          exact congrArg some (max_eq_right hge).symm

/-- Witness for C9: rate 0.05 °/min, deficit 3°, next start t = 10000 s
⇒ fire at 10000 − 60·60 = 6400 s (later than now = 1000 s). -/
theorem C9_next_fire_witness :
    calculate_next_fire_time cfgC9 envC9 sC9 = some 6400 := by
  have h := ((C9_next_fire cfgC9 envC9 sC9).2.2.2 10000 rfl rfl rfl).2 rfl
  have h2 := h.2 (by norm_num [cfgC9, sC9, initState])
  rw [h2]
  norm_num [minutes_needed, adjusted_heat_rate, get_outside_temp, min_def, max_def,
    cfgC9, envC9, sC9, initState]

/-- C10: a state with the boiler active but `last_on_time` unset — the
start-up resync state — never trips the `max_on_time` watchdog: a control
tick can turn the boiler off only through the temperature cutoff (and
only with a heater configured), and while the tick leaves the boiler on,
`last_on_time` stays unset, so the watchdog stays disarmed on every
subsequent tick. -/
theorem C10_resync_no_watchdog (cfg : Config) (env : Env) (s : State) (c : ℚ)
    (hact : s.is_active_heating = true) (hlon : s.last_on_time = none)
    (hmode : s.hvac_mode = HVACMode.heat) (hc : s.current_temp = some c) :
    ((run_control_logic cfg env s).1.is_active_heating = false →
      cfg.heater_entity = true ∧
      c ≥ (target_step cfg env (schedule_step cfg env s)).target_temp -
          (if cfg.enable_overshoot then s.overshoot_temp else 0)) ∧
    ((run_control_logic cfg env s).1.is_active_heating = true →
      (run_control_logic cfg env s).1.last_on_time = none) := by
  obtain ⟨m, l, ls, hss⟩ := schedule_step_shape cfg env s
  obtain ⟨t, l2, p, hts⟩ := target_step_shape cfg env (schedule_step cfg env s)
  have hrun : run_control_logic cfg env s =
      boiler_step cfg env (target_step cfg env (schedule_step cfg env s)) :=
    run_control_logic_stages cfg env s (by simp [hc]) hmode
  set S2 := target_step cfg env (schedule_step cfg env s) with hS2
  have h2act : S2.is_active_heating = true := by rw [hts, hss]; exact hact
  have h2lon : S2.last_on_time = none := by rw [hts, hss]; exact hlon
  have h2ct : S2.current_temp = some c := by rw [hts, hss]; exact hc
  have h2ov : S2.overshoot_temp = s.overshoot_temp := by rw [hts, hss]
  have hb : boiler_step cfg env S2 =
      (if c ≥ S2.target_temp - (if cfg.enable_overshoot then s.overshoot_temp else 0)
        then set_boiler cfg env false S2 else (S2, [])) := by
    unfold boiler_step
    simp [h2act, h2ct, h2lon, h2ov, truthy_none]
  rw [hrun]
  constructor
  · intro hoff
    rw [hb] at hoff
    by_cases hcut : c ≥ S2.target_temp - (if cfg.enable_overshoot then s.overshoot_temp else 0)
    · refine ⟨?_, hcut⟩
      by_cases hh : cfg.heater_entity = true
      · exact hh
      · rw [if_pos hcut,
          set_boiler_no_heater cfg env S2 false (Bool.not_eq_true _ ▸ hh)] at hoff
        exact Bool.noConfusion (h2act.symm.trans hoff)
    · rw [if_neg hcut] at hoff
      exact Bool.noConfusion (h2act.symm.trans hoff)
  · intro hon
    rw [hb] at hon ⊢
    by_cases hcut : c ≥ S2.target_temp - (if cfg.enable_overshoot then s.overshoot_temp else 0)
    · rw [if_pos hcut] at hon ⊢
      by_cases hh : cfg.heater_entity = true
      · have hoffres := (set_boiler_false_result cfg env S2 hh).1
        exact Bool.noConfusion (hoffres.symm.trans hon)
      · rw [set_boiler_no_heater cfg env S2 false (Bool.not_eq_true _ ▸ hh)]
        exact h2lon
    · rw [if_neg hcut]
      exact h2lon

/-- Witness for C10: the resync state (boiler ON, `last_on_time` unset,
room at 10° under a 15° setback target) survives a tick 10⁹ s in the
future — the elapsed time vastly exceeds `max_on_time`, yet the boiler
stays on and the watchdog stays disarmed. -/
theorem C10_resync_no_watchdog_witness :
    (run_control_logic cfgC10 envC10 sC10).1.is_active_heating = true ∧
    (run_control_logic cfgC10 envC10 sC10).1.last_on_time = none := by
  have h1 : schedule_step cfgC10 envC10 sC10 = sC10 :=
    schedule_step_no_entity cfgC10 envC10 sC10 rfl
  have h2 : target_step cfgC10 envC10 sC10 = sC10tgt := by
    norm_num [target_step, sC10tgt, sC10, startup_resync, initState, cfgC10]
  have h3 : boiler_step cfgC10 envC10 sC10tgt = (sC10tgt, []) := by
    norm_num [boiler_step, truthy, sC10tgt, sC10, startup_resync, initState, cfgC10, envC10]
  have h0 : run_control_logic cfgC10 envC10 sC10 =
      boiler_step cfgC10 envC10 (target_step cfgC10 envC10 (schedule_step cfgC10 envC10 sC10)) := by
    simp [run_control_logic, sC10, startup_resync, initState, cfgC10]
  have hact : (run_control_logic cfgC10 envC10 sC10).1.is_active_heating = true := by
    rw [h0, h1, h2, h3]
    rfl
  exact ⟨hact, (C10_resync_no_watchdog cfgC10 envC10 sC10 10 rfl rfl rfl rfl).2 hact⟩

end SmartHeating
